import Mathlib

/-! WP_JS: the HTTP front end of a WhatsApp number checker (`main.js`)

A shallow embedding of the request handlers of `main.js` and the properties
the specification states about them.

* JavaScript values that can reach the handlers (parsed JSON, plus
  `undefined` for an absent field) are the type `JsVal`.
* The external messaging client (`whatsapp-web.js`) is a collaborator with
  its own state: every call takes the collaborator state, returns either a
  value or a thrown error, and a new collaborator state.
* A handler returns the HTTP response together with the ordered trace of
  effects it performed (collaborator calls and timer pauses).
-/

namespace WPJS

/-! ## JavaScript values -/

/-- The JavaScript values a request body is made of. `undefined` is what reading
an absent property gives. Numbers are the integer-valued ones: the handlers only
test a number for being zero and pass it on unchanged. -/
inductive JsVal where
  | undefined : JsVal
  | null : JsVal
  | bool (b : Bool) : JsVal
  | num (n : Int) : JsVal
  | str (s : String) : JsVal
  | arr (items : List JsVal) : JsVal
  | obj (fields : List (String × JsVal)) : JsVal

/-- A thrown `Error` object; the handlers only ever read its `message`. -/
structure JsError where
  message : String
deriving DecidableEq, Repr

/-- JavaScript truthiness (`!x` is the negation of this). -/
def truthy : JsVal → Bool
  | .undefined => false
  | .null => false
  | .bool b => b
  | .num n => n != 0
  | .str s => s != ""
  | .arr _ => true
  | .obj _ => true

/-- The test `Array.isArray(x)`. -/
def isArray : JsVal → Bool
  | .arr _ => true
  | _ => false

/-- Own-property lookup in a parsed JSON object. -/
def lookupField (key : String) : List (String × JsVal) → JsVal
  | [] => .undefined
  | (k, v) :: rest => if k = key then v else lookupField key rest

/-- The destructuring `const { key } = body`: it throws a `TypeError` on
`undefined` and `null`, reads the property of an object, and gives `undefined`
for the property names used here (`number`, `numbers`, `imageUrl`, `message`) on
every other value. -/
def destructure (body : JsVal) (key : String) : Except JsError JsVal :=
  match body with
  | .undefined =>
      .error ⟨"Cannot destructure property \x27" ++ key ++ "\x27 of \x27req.body\x27 as it is undefined."⟩
  | .null =>
      .error ⟨"Cannot destructure property \x27" ++ key ++ "\x27 of \x27req.body\x27 as it is null."⟩
  | .obj fields => .ok (lookupField key fields)
  | _ => .ok .undefined

/-! ## `formatPhoneNumber` -/

/-- The character class `\D` of the regular expression: everything that is not
one of `0`..`9`. -/
def matchesNonDigit (c : Char) : Bool :=
  !(decide ('0' ≤ c) && decide (c ≤ '9'))

/-- The call `s.replace(re, replacement)` for a global regular expression `re`
that matches exactly one character, those satisfying `cls`: scanning left to
right, every matching character is replaced, every other one is copied. -/
def replaceAllChars (cls : Char → Bool) (replacement : List Char) : List Char → List Char
  | [] => []
  | c :: cs =>
      if cls c then replacement ++ replaceAllChars cls replacement cs
      else c :: replaceAllChars cls replacement cs

/-- The method call `number.replace(/\D/g, '')` on a string. -/
def stripNonDigits (s : String) : String :=
  String.mk (replaceAllChars matchesNonDigit [] s.data)

/-- The function `formatPhoneNumber(number)` of `main.js`. On a string it
removes every non-digit character. Every other value has no callable `replace`
(`null` and `undefined` have no properties at all, and a property of a parsed
JSON object is never a function), so the call throws a `TypeError`. -/
def formatPhoneNumber (number : JsVal) : Except JsError String :=
  match number with
  | .str s => .ok (stripNonDigits s)
  | .undefined => .error ⟨"Cannot read properties of undefined (reading \x27replace\x27)"⟩
  | .null => .error ⟨"Cannot read properties of null (reading \x27replace\x27)"⟩
  | _ => .error ⟨"number.replace is not a function"⟩

/-- A decimal digit character, `0` to `9`. -/
def isDigitChar (c : Char) : Prop := '0' ≤ c ∧ c ≤ '9'

instance : DecidablePred isDigitChar := fun c => by
  unfold isDigitChar; exact inferInstance

/-! ## The collaborator, effects and responses -/

/-- What a handler does to the outside world, in the order it does it: the three
collaborator calls, and the timer pause `setTimeout(resolve, ms)` it awaits. -/
inductive Effect (μ : Type) where
  | isRegisteredUser (numberId : String) : Effect μ
  | fromUrl (url : JsVal) : Effect μ
  | sendMessage (numberId : String) (media : μ) (caption : JsVal) : Effect μ
  | setTimeout (ms : Nat) : Effect μ

/-- The external client as the handlers use it. `σ` is the collaborator state,
`μ` the media objects `MessageMedia.fromUrl` produces. Each awaited call settles:
it resolves with a value or rejects with an error, and leaves a new state. -/
structure Collaborator (σ μ : Type) where
  isRegisteredUser : String → σ → Except JsError Bool × σ
  fromUrl : JsVal → σ → Except JsError μ × σ
  sendMessage : String → μ → JsVal → σ → Except JsError Unit × σ

/-- An HTTP response: the status code and the JSON body passed to `res.json`. -/
structure Response where
  status : Nat
  body : JsVal

/-- A finished handler run: the response sent, the effects performed in order,
and the collaborator state left behind. -/
structure Run (σ μ : Type) where
  response : Response
  trace : List (Effect μ)
  state : σ

/-- The collaborator calls among a list of effects (timer pauses left out). -/
def collaboratorCalls {μ : Type} (trace : List (Effect μ)) : List (Effect μ) :=
  trace.filter fun e =>
    match e with
    | .setTimeout _ => false
    | _ => true

/-- The expression `error.message || 'Internal server error'`. -/
def messageOrDefault (error : JsError) : String :=
  if error.message ≠ "" then error.message else "Internal server error"

/-- The expression `new Date().toISOString()`; `now` is the clock reading. -/
def timestamp (now : String) : JsVal := .str now

def notReadyMessage : String :=
  "WhatsApp client is not ready. Please scan QR code first."

/-! ## `GET /health` and `GET /status` -/

/-- The handler of `GET /health`. -/
def health (isClientReady : Bool) (now : String) : Response :=
  { status := 200
    body := .obj [("status", .str "ok"), ("whatsappReady", .bool isClientReady),
                  ("timestamp", timestamp now)] }

/-- The handler of `GET /status`. -/
def status (isClientReady : Bool) (now : String) : Response :=
  { status := 200
    body := .obj [("success", .bool true), ("isReady", .bool isClientReady),
                  ("timestamp", timestamp now)] }

/-! ## `POST /check-number` -/

/-- The `try` block of the `/check-number` handler: the response it sends, or
the error that escapes it, with the effects performed and the state left. -/
def checkNumberTry {σ μ : Type} (c : Collaborator σ μ) (isClientReady : Bool)
    (body : JsVal) (now : String) (s : σ) :
    Except JsError Response × List (Effect μ) × σ :=
  if !isClientReady then
    (.ok { status := 503
           body := .obj [("success", .bool false), ("error", .str notReadyMessage),
                         ("isRegistered", .bool false)] }, [], s)
  else
    match destructure body "number" with
    | .error e => (.error e, [], s)
    | .ok number =>
      if !truthy number then
        (.ok { status := 400
               body := .obj [("success", .bool false), ("error", .str "Phone number is required"),
                             ("isRegistered", .bool false)] }, [], s)
      else
        match formatPhoneNumber number with
        | .error e => (.error e, [], s)
        | .ok formattedNumber =>
          if formattedNumber.length < 10 then
            (.ok { status := 400
                   body := .obj [("success", .bool false),
                                 ("error", .str "Invalid phone number format"),
                                 ("isRegistered", .bool false)] }, [], s)
          else
            let numberId := formattedNumber ++ "@c.us"
            match c.isRegisteredUser numberId s with
            | (.error e, s1) => (.error e, [.isRegisteredUser numberId], s1)
            | (.ok isRegistered, s1) =>
              (.ok { status := 200
                     body := .obj [("success", .bool true), ("number", .str formattedNumber),
                                   ("isRegistered", .bool isRegistered),
                                   ("timestamp", timestamp now)] },
               [.isRegisteredUser numberId], s1)

/-- The handler of `POST /check-number`: the `try` block, and the `catch` that
turns an escaping error into a 500 response. -/
def checkNumber {σ μ : Type} (c : Collaborator σ μ) (isClientReady : Bool)
    (body : JsVal) (now : String) (s : σ) : Run σ μ :=
  match checkNumberTry c isClientReady body now s with
  | (.ok response, trace, s1) => { response := response, trace := trace, state := s1 }
  | (.error error, trace, s1) =>
    { response :=
        { status := 500
          body := .obj [("success", .bool false), ("error", .str (messageOrDefault error)),
                        ("isRegistered", .bool false)] }
      trace := trace, state := s1 }

/-! ## `POST /check-numbers` -/

/-- The variables the batch loop updates: the `results` array, the effects
performed so far, and the collaborator state. -/
structure LoopState (σ μ : Type) where
  results : List JsVal
  trace : List (Effect μ)
  state : σ

/-- The loop variables on entry to the loop: `const results = []`, nothing done
yet, the collaborator in state `s`. -/
def loopStart {σ μ : Type} (s : σ) : LoopState σ μ :=
  { results := [], trace := [], state := s }

/-- The length `x.length` of an array. -/
def arrayLength : JsVal → Nat
  | .arr items => items.length
  | _ => 0

/-- The elements a `for ... of` loop over an array visits, in order. -/
def arrayItems : JsVal → List JsVal
  | .arr items => items
  | _ => []

/-- One iteration of the `for (const number of numbers)` loop, with its own
`try`/`catch`. -/
def checkNumbersItem {σ μ : Type} (c : Collaborator σ μ) (number : JsVal)
    (st : LoopState σ μ) : LoopState σ μ :=
  match formatPhoneNumber number with
  | .error error =>
    { st with results := st.results ++
        [.obj [("number", number), ("isRegistered", .bool false),
               ("error", .str error.message)]] }
  | .ok formattedNumber =>
    if formattedNumber.length < 10 then
      { st with results := st.results ++
          [.obj [("number", number), ("isRegistered", .bool false),
                 ("error", .str "Invalid phone number format")]] }
    else
      let numberId := formattedNumber ++ "@c.us"
      match c.isRegisteredUser numberId st.state with
      | (.error error, s1) =>
        { results := st.results ++
            [.obj [("number", number), ("isRegistered", .bool false),
                   ("error", .str error.message)]]
          trace := st.trace ++ [.isRegisteredUser numberId]
          state := s1 }
      | (.ok isRegistered, s1) =>
        { results := st.results ++
            [.obj [("number", .str formattedNumber), ("isRegistered", .bool isRegistered)]]
          trace := st.trace ++ [.isRegisteredUser numberId, .setTimeout 500]
          state := s1 }

/-- The loop `for (const number of numbers) ...`, one item after the other. -/
def checkNumbersLoop {σ μ : Type} (c : Collaborator σ μ) :
    List JsVal → LoopState σ μ → LoopState σ μ
  | [], st => st
  | number :: rest, st => checkNumbersLoop c rest (checkNumbersItem c number st)

/-- The `try` block of the `/check-numbers` handler. -/
def checkNumbersTry {σ μ : Type} (c : Collaborator σ μ) (isClientReady : Bool)
    (body : JsVal) (now : String) (s : σ) :
    Except JsError Response × List (Effect μ) × σ :=
  if !isClientReady then
    (.ok { status := 503
           body := .obj [("success", .bool false), ("error", .str notReadyMessage),
                         ("results", .arr [])] }, [], s)
  else
    match destructure body "numbers" with
    | .error e => (.error e, [], s)
    | .ok numbers =>
      if !truthy numbers || !isArray numbers || arrayLength numbers == 0 then
        (.ok { status := 400
               body := .obj [("success", .bool false),
                             ("error", .str "An array of phone numbers is required"),
                             ("results", .arr [])] }, [], s)
      else if arrayLength numbers > 50 then
        (.ok { status := 400
               body := .obj [("success", .bool false),
                             ("error", .str "Maximum 50 numbers allowed per request"),
                             ("results", .arr [])] }, [], s)
      else
        let st := checkNumbersLoop c (arrayItems numbers) (loopStart s)
        (.ok { status := 200
               body := .obj [("success", .bool true), ("total", .num (arrayLength numbers)),
                             ("results", .arr st.results), ("timestamp", timestamp now)] },
         st.trace, st.state)

/-- The handler of `POST /check-numbers`. -/
def checkNumbers {σ μ : Type} (c : Collaborator σ μ) (isClientReady : Bool)
    (body : JsVal) (now : String) (s : σ) : Run σ μ :=
  match checkNumbersTry c isClientReady body now s with
  | (.ok response, trace, s1) => { response := response, trace := trace, state := s1 }
  | (.error error, trace, s1) =>
    { response :=
        { status := 500
          body := .obj [("success", .bool false), ("error", .str (messageOrDefault error)),
                        ("results", .arr [])] }
      trace := trace, state := s1 }

/-! ## `POST /send-image` -/

/-- The expression `message || ''`. -/
def messageOrEmpty (message : JsVal) : JsVal :=
  if truthy message then message else .str ""

/-- The `try` block of the `/send-image` handler. -/
def sendImageTry {σ μ : Type} (c : Collaborator σ μ) (isClientReady : Bool)
    (body : JsVal) (now : String) (s : σ) :
    Except JsError Response × List (Effect μ) × σ :=
  if !isClientReady then
    (.ok { status := 503
           body := .obj [("success", .bool false), ("error", .str notReadyMessage)] }, [], s)
  else
    match destructure body "number", destructure body "imageUrl", destructure body "message" with
    | .error e, _, _ => (.error e, [], s)
    | _, .error e, _ => (.error e, [], s)
    | _, _, .error e => (.error e, [], s)
    | .ok number, .ok imageUrl, .ok message =>
      if !truthy number then
        (.ok { status := 400
               body := .obj [("success", .bool false),
                             ("error", .str "Phone number is required")] }, [], s)
      else if !truthy imageUrl then
        (.ok { status := 400
               body := .obj [("success", .bool false),
                             ("error", .str "imageUrl is required")] }, [], s)
      else
        match formatPhoneNumber number with
        | .error e => (.error e, [], s)
        | .ok formattedNumber =>
          if formattedNumber.length < 10 then
            (.ok { status := 400
                   body := .obj [("success", .bool false),
                                 ("error", .str "Invalid phone number format")] }, [], s)
          else
            let numberId := formattedNumber ++ "@c.us"
            match c.isRegisteredUser numberId s with
            | (.error e, s1) => (.error e, [.isRegisteredUser numberId], s1)
            | (.ok isRegistered, s1) =>
              if !isRegistered then
                (.ok { status := 404
                       body := .obj [("success", .bool false),
                                     ("error", .str "Number is not registered on WhatsApp")] },
                 [.isRegisteredUser numberId], s1)
              else
                match c.fromUrl imageUrl s1 with
                | (.error e, s2) => (.error e, [.isRegisteredUser numberId, .fromUrl imageUrl], s2)
                | (.ok media, s2) =>
                  match c.sendMessage numberId media (messageOrEmpty message) s2 with
                  | (.error e, s3) =>
                    (.error e, [.isRegisteredUser numberId, .fromUrl imageUrl,
                                .sendMessage numberId media (messageOrEmpty message)], s3)
                  | (.ok _, s3) =>
                    (.ok { status := 200
                           body := .obj [("success", .bool true), ("number", .str formattedNumber),
                                         ("imageUrl", imageUrl),
                                         ("message", messageOrEmpty message),
                                         ("timestamp", timestamp now)] },
                     [.isRegisteredUser numberId, .fromUrl imageUrl,
                      .sendMessage numberId media (messageOrEmpty message)], s3)

/-- The handler of `POST /send-image`. -/
def sendImage {σ μ : Type} (c : Collaborator σ μ) (isClientReady : Bool)
    (body : JsVal) (now : String) (s : σ) : Run σ μ :=
  match sendImageTry c isClientReady body now s with
  | (.ok response, trace, s1) => { response := response, trace := trace, state := s1 }
  | (.error error, trace, s1) =>
    { response :=
        { status := 500
          body := .obj [("success", .bool false), ("error", .str (messageOrDefault error))] }
      trace := trace, state := s1 }

/-! ## Reading a response body -/

/-- Whether the JSON object `body` has a property called `key`. -/
def hasField (key : String) : JsVal → Bool
  | .obj fields => fields.any fun kv => kv.1 == key
  | _ => false

/-- The value of property `key` of the JSON object `body`. -/
def getField (key : String) : JsVal → JsVal
  | .obj fields => lookupField key fields
  | _ => .undefined

/-- A body that has both a `success` and a `timestamp` property. -/
def hasSuccessAndTimestamp (body : JsVal) : Bool :=
  hasField "success" body && hasField "timestamp" body

/-- A response with `success` in its body, and `timestamp` in it exactly when
the status is 200. -/
def successAndTimestampIff200 (response : Response) : Prop :=
  hasField "success" response.body = true ∧
  (hasField "timestamp" response.body = true ↔ response.status = 200)

/-! ## Concrete collaborators -/

/-- A collaborator to run the handlers on. Its state counts the calls made so
far. The number 12345678901 is registered and every other number is not; media
are their URL, and sending succeeds. No call is ever rejected. -/
def sampleCollaborator : Collaborator Nat JsVal where
  isRegisteredUser := fun numberId calls => (.ok (numberId == "12345678901@c.us"), calls + 1)
  fromUrl := fun url calls => (.ok url, calls + 1)
  sendMessage := fun _ _ _ calls => (.ok (), calls + 1)

/-- A collaborator like `sampleCollaborator` whose registration query for the
number 10000000000 is rejected with the error `Evaluation failed`. -/
def failingCollaborator : Collaborator Nat JsVal where
  isRegisteredUser := fun numberId calls =>
    if numberId = "10000000000@c.us" then (.error ⟨"Evaluation failed"⟩, calls + 1)
    else (.ok (numberId == "12345678901@c.us"), calls + 1)
  fromUrl := fun url calls => (.ok url, calls + 1)
  sendMessage := fun _ _ _ calls => (.ok (), calls + 1)

/-- A collaborator whose every registration query is rejected with an error
carrying `message`. -/
def throwingCollaborator (message : String) : Collaborator Nat JsVal where
  isRegisteredUser := fun _ calls => (.error ⟨message⟩, calls + 1)
  fromUrl := fun url calls => (.ok url, calls + 1)
  sendMessage := fun _ _ _ calls => (.ok (), calls + 1)

/-! ## Identifiers passed to the collaborator -/

/-- The identifier a collaborator call is made with, for the two calls that take
one. -/
def effectId {μ : Type} : Effect μ → Option String
  | .isRegisteredUser numberId => some numberId
  | .sendMessage numberId _ _ => some numberId
  | .fromUrl _ => none
  | .setTimeout _ => none

/-- The identifier `numberId` is the cleaned form of `number` followed by
`@c.us`, and that cleaned form is at least 10 characters, all of them digits. -/
def isIdentifierOf (number : JsVal) (numberId : String) : Prop :=
  ∃ d : String, formatPhoneNumber number = .ok d ∧ numberId = d ++ "@c.us" ∧
    10 ≤ d.length ∧ ∀ ch ∈ d.data, isDigitChar ch

/-! ## The trace of a batch, as the specification describes it -/

/-- The specification of the effects of a batch, item by item in input order: an
item whose cleaned form has at least 10 digits contributes one registration
query, followed by one pause of 500 when the query returns; an item that fails
validation (or cannot be cleaned) contributes nothing. -/
def expectedBatchTrace {σ μ : Type} (c : Collaborator σ μ) : List JsVal → σ → List (Effect μ)
  | [], _ => []
  | item :: rest, s =>
    match formatPhoneNumber item with
    | .error _ => expectedBatchTrace c rest s
    | .ok cleaned =>
      if 10 ≤ cleaned.length then
        match c.isRegisteredUser (cleaned ++ "@c.us") s with
        | (.ok _, s1) =>
          .isRegisteredUser (cleaned ++ "@c.us") :: .setTimeout 500 :: expectedBatchTrace c rest s1
        | (.error _, s1) =>
          .isRegisteredUser (cleaned ++ "@c.us") :: expectedBatchTrace c rest s1
      else expectedBatchTrace c rest s

/-- The effects of one item of a batch when no query throws: a query and a
pause of 500 for a valid item, nothing otherwise. -/
def answeredItemTrace {μ : Type} (item : JsVal) : List (Effect μ) :=
  match formatPhoneNumber item with
  | .error _ => []
  | .ok cleaned =>
    if 10 ≤ cleaned.length then [.isRegisteredUser (cleaned ++ "@c.us"), .setTimeout 500]
    else []

/-! ## Lifecycle events and the readiness flag -/

/-- The client events `initializeWhatsAppClient` registers a handler for, with
the argument each handler receives. -/
inductive ClientEvent where
  | qr (qr : String) : ClientEvent
  | ready : ClientEvent
  | authenticated : ClientEvent
  | auth_failure (msg : String) : ClientEvent
  | disconnected (reason : String) : ClientEvent

/-- What the handler of a client event does to `isClientReady`. -/
def onClientEvent (isClientReady : Bool) : ClientEvent → Bool
  | .qr _ => isClientReady
  | .ready => true
  | .authenticated => isClientReady
  | .auth_failure _ => false
  | .disconnected _ => false

/-- The value of `isClientReady` after the events, starting from the
declaration `let isClientReady = false`. -/
def isClientReadyAfter (events : List ClientEvent) : Bool :=
  events.foldl onClientEvent false

/-- The events whose handler sets the flag to false. -/
def lowersReadiness : ClientEvent → Bool
  | .auth_failure _ => true
  | .disconnected _ => true
  | _ => false

/-! ## Graceful shutdown -/

/-- How an awaited promise behaves: it resolves after a time, rejects after a
time with an error, or never settles. -/
inductive Settlement where
  | resolves (after : Nat) : Settlement
  | rejects (after : Nat) (error : JsError) : Settlement
  | never : Settlement

/-- The expression `Promise.race([p, new Promise(resolve => setTimeout(resolve, ms))])`:
how it settles and when. A promise that settles before the timer decides the
race; otherwise the timer resolves it at `ms`. -/
def raceWithTimer (p : Settlement) (ms : Nat) : Except JsError Unit × Nat :=
  match p with
  | .resolves after => if after < ms then (.ok (), after) else (.ok (), ms)
  | .rejects after error => if after < ms then (.error error, after) else (.ok (), ms)
  | .never => (.ok (), ms)

/-- The module variables the `SIGINT` handler reads and writes: whether `client`
has been assigned (by `initializeWhatsAppClient`), and `isShuttingDown`. -/
structure Globals where
  client : Bool
  isShuttingDown : Bool

/-- A reached `process.exit(code)`, and the time after the signal at which it is
reached. -/
structure Exit where
  code : Nat
  after : Nat
deriving DecidableEq, Repr

/-- One run of the `SIGINT` handler: the module variables it leaves, how many
times it called `client.destroy()`, whether it logged `Shutdown complete`, and
the `process.exit` it reached (none when it returned at the guard). -/
structure SigintRun where
  globals : Globals
  destroyCalls : Nat
  loggedComplete : Bool
  exit : Option Exit

/-- The handler `process.on('SIGINT', ...)`. The argument `teardown` is how the
promise of `client.destroy()` behaves if it is called. -/
def sigintHandler (g : Globals) (teardown : Settlement) : SigintRun :=
  if g.isShuttingDown then
    { globals := g, destroyCalls := 0, loggedComplete := false, exit := none }
  else
    let g1 : Globals := { g with isShuttingDown := true }
    let tried : Except JsError Unit × Nat × Nat :=
      if g.client then
        match raceWithTimer teardown 3000 with
        | (.ok _, after) => (.ok (), after, 1)
        | (.error error, after) => (.error error, after, 1)
      else (.ok (), 0, 0)
    match tried with
    | (.ok _, after, calls) =>
      { globals := g1, destroyCalls := calls, loggedComplete := true, exit := some ⟨0, after⟩ }
    | (.error _, after, calls) =>
      { globals := g1, destroyCalls := calls, loggedComplete := false, exit := some ⟨0, after⟩ }

/-- The runs of the handler for a sequence of `SIGINT` deliveries, one teardown
behaviour per delivery, the module variables carried from one to the next. -/
def deliverSigints (g : Globals) : List Settlement → List SigintRun
  | [] => []
  | teardown :: rest =>
    sigintHandler g teardown :: deliverSigints (sigintHandler g teardown).globals rest

/-- The number of `client.destroy()` calls made by a list of runs. -/
def totalDestroyCalls (runs : List SigintRun) : Nat :=
  (runs.map fun run => run.destroyCalls).sum

/-- The number of runs that got past the guard and started the shutdown
sequence. -/
def shutdownsStarted (runs : List SigintRun) : Nat :=
  (runs.filter fun run => run.exit.isSome).length

/-! ## Properties of `formatPhoneNumber` -/

theorem matchesNonDigit_eq (c : Char) : matchesNonDigit c = !decide (isDigitChar c) := by
  simp [matchesNonDigit, isDigitChar, Bool.decide_and]

theorem replaceAllChars_nil_eq_filter (cls : Char → Bool) (cs : List Char) :
    replaceAllChars cls [] cs = cs.filter fun c => !cls c := by
  induction cs with
  | nil => rfl
  | cons c cs ih =>
    by_cases h : cls c = true
    · simp [replaceAllChars, h, ih]
    · simp [replaceAllChars, h, ih]

theorem stripNonDigits_data (s : String) :
    (stripNonDigits s).data = s.data.filter fun c => decide (isDigitChar c) := by
  simp [stripNonDigits, replaceAllChars_nil_eq_filter, matchesNonDigit_eq]

theorem stripNonDigits_idem (s : String) : stripNonDigits (stripNonDigits s) = stripNonDigits s := by
  apply String.ext
  rw [stripNonDigits_data, stripNonDigits_data, List.filter_filter]
  simp

/-- C5: on every string `s`, `formatPhoneNumber` returns a string made of digit
characters only, and that string is exactly `s` with its digit characters kept,
all of them, in their original order. -/
theorem formatPhoneNumber_keeps_exactly_the_digits (s : String) :
    ∃ t : String, formatPhoneNumber (.str s) = .ok t ∧
      (∀ c ∈ t.data, isDigitChar c) ∧
      t.data = s.data.filter (fun c => decide (isDigitChar c)) ∧
      List.Sublist t.data s.data := by
  refine ⟨stripNonDigits s, rfl, ?_, stripNonDigits_data s, ?_⟩
  · intro c hc
    rw [stripNonDigits_data] at hc
    simpa using (List.mem_filter.mp hc).2
  · rw [stripNonDigits_data]
    exact List.filter_sublist _

/-- C6: `formatPhoneNumber` is idempotent: cleaning the cleaned string of any
string `s` returns the cleaned string again. -/
theorem formatPhoneNumber_idempotent (s : String) :
    ∃ t : String, formatPhoneNumber (.str s) = .ok t ∧ formatPhoneNumber (.str t) = .ok t := by
  refine ⟨stripNonDigits s, rfl, ?_⟩
  simp [formatPhoneNumber, stripNonDigits_idem]

/-! ## Readiness gate -/

/-- C2: when the readiness flag is false, each of `/check-number`,
`/check-numbers` and `/send-image` answers 503 and performs no effect at all (no
`isRegisteredUser`, no `fromUrl`, no `sendMessage`), whatever the request body
is, also one that would fail validation or make the destructuring throw. -/
theorem not_ready_gives_503_and_no_calls {σ μ : Type} (c : Collaborator σ μ)
    (body : JsVal) (now : String) (s : σ) :
    ((checkNumber c false body now s).response.status = 503 ∧
      (checkNumber c false body now s).trace = []) ∧
    ((checkNumbers c false body now s).response.status = 503 ∧
      (checkNumbers c false body now s).trace = []) ∧
    ((sendImage c false body now s).response.status = 503 ∧
      (sendImage c false body now s).trace = []) := by
  refine ⟨⟨rfl, rfl⟩, ⟨rfl, rfl⟩, ⟨rfl, rfl⟩⟩

/-! ## `/check-number` -/

theorem truthy_str (s : String) : truthy (.str s) = true ↔ s ≠ "" := by
  simp [truthy]

/-- What `/check-number` does with a non-empty string when the client is ready,
by the length of the cleaned string. -/
theorem checkNumber_string {σ μ : Type} (c : Collaborator σ μ) (body : JsVal)
    (now : String) (s : σ) (number : String)
    (hbody : destructure body "number" = .ok (.str number)) (hne : number ≠ "") :
    checkNumberTry c true body now s =
      if (stripNonDigits number).length < 10 then
        (.ok { status := 400
               body := .obj [("success", .bool false),
                             ("error", .str "Invalid phone number format"),
                             ("isRegistered", .bool false)] }, [], s)
      else
        match c.isRegisteredUser (stripNonDigits number ++ "@c.us") s with
        | (.error e, s1) => (.error e, [.isRegisteredUser (stripNonDigits number ++ "@c.us")], s1)
        | (.ok isRegistered, s1) =>
          (.ok { status := 200
                 body := .obj [("success", .bool true), ("number", .str (stripNonDigits number)),
                               ("isRegistered", .bool isRegistered),
                               ("timestamp", timestamp now)] },
           [.isRegisteredUser (stripNonDigits number ++ "@c.us")], s1) := by
  simp [checkNumberTry, hbody, truthy, hne, formatPhoneNumber]

/-- C3: with the client ready and a non-empty string as `number`, `/check-number`
passes the request on to the collaborator if and only if the cleaned string has
at least 10 digits (the one call made is the registration query for the cleaned
string followed by `@c.us`); otherwise it answers 400 and calls nothing. -/
theorem checkNumber_accepts_iff_ten_digits {σ μ : Type} (c : Collaborator σ μ)
    (body : JsVal) (now : String) (s : σ) (number : String)
    (hbody : destructure body "number" = .ok (.str number)) (hne : number ≠ "") :
    ∃ cleaned : String, formatPhoneNumber (.str number) = .ok cleaned ∧
      ((checkNumber c true body now s).trace ≠ [] ↔ 10 ≤ cleaned.length) ∧
      (10 ≤ cleaned.length →
        (checkNumber c true body now s).trace = [.isRegisteredUser (cleaned ++ "@c.us")]) ∧
      (cleaned.length < 10 →
        (checkNumber c true body now s).response.status = 400 ∧
        (checkNumber c true body now s).trace = []) := by
  refine ⟨stripNonDigits number, rfl, ?_⟩
  have h := checkNumber_string c body now s number hbody hne
  by_cases hlen : (stripNonDigits number).length < 10
  · rw [if_pos hlen] at h
    have hnot : ¬ 10 ≤ (stripNonDigits number).length := by omega
    simp [checkNumber, h, hlen, hnot]
  · rw [if_neg hlen] at h
    have hge : 10 ≤ (stripNonDigits number).length := by omega
    rcases hq : c.isRegisteredUser (stripNonDigits number ++ "@c.us") s with ⟨r, s1⟩
    rw [hq] at h
    cases r <;> simp [checkNumber, h, hlen, hge]

/-- The two examples of C3: `+1 (234) 567-8901` is cleaned to `12345678901` and
passed on to the collaborator; `123` is answered 400 without any call. -/
theorem checkNumber_accepts_iff_ten_digits_witness :
    (formatPhoneNumber (.str "+1 (234) 567-8901") = .ok "12345678901" ∧
      (checkNumber sampleCollaborator true (.obj [("number", .str "+1 (234) 567-8901")])
        "2026-01-01T00:00:00.000Z" 0).trace = [.isRegisteredUser "12345678901@c.us"]) ∧
    ((checkNumber sampleCollaborator true (.obj [("number", .str "123")])
        "2026-01-01T00:00:00.000Z" 0).response.status = 400 ∧
      (checkNumber sampleCollaborator true (.obj [("number", .str "123")])
        "2026-01-01T00:00:00.000Z" 0).trace = []) := by
  obtain ⟨cleaned, hc, -, hyes, -⟩ :=
    checkNumber_accepts_iff_ten_digits sampleCollaborator
      (.obj [("number", .str "+1 (234) 567-8901")]) "2026-01-01T00:00:00.000Z" 0
      "+1 (234) 567-8901" rfl (by decide)
  obtain ⟨cleaned2, hc2, -, -, hno⟩ :=
    checkNumber_accepts_iff_ten_digits sampleCollaborator
      (.obj [("number", .str "123")]) "2026-01-01T00:00:00.000Z" 0 "123" rfl (by decide)
  have e1 : cleaned = "12345678901" := by
    have : (Except.ok (stripNonDigits "+1 (234) 567-8901") : Except JsError String) = .ok cleaned := hc
    injection this with this
    rw [← this]; rfl
  have e2 : cleaned2 = "123" := by
    have : (Except.ok (stripNonDigits "123") : Except JsError String) = .ok cleaned2 := hc2
    injection this with this
    rw [← this]; rfl
  subst e1; subst e2
  exact ⟨⟨rfl, hyes (by decide)⟩, hno (by decide)⟩

/-- C4: with the client ready, a string `number` whose cleaned form has at least
10 digits, and a collaborator that answers the query for the cleaned string
followed by `@c.us` with `isRegistered`, `/check-number` answers 200 with
`success: true`, `number` the cleaned string and `isRegistered` that answer, and
the registration query is the only effect. -/
theorem checkNumber_returns_collaborator_answer {σ μ : Type} (c : Collaborator σ μ)
    (body : JsVal) (now : String) (s s1 : σ) (number cleaned : String) (isRegistered : Bool)
    (hbody : destructure body "number" = .ok (.str number))
    (hclean : formatPhoneNumber (.str number) = .ok cleaned)
    (hlen : 10 ≤ cleaned.length)
    (hanswer : c.isRegisteredUser (cleaned ++ "@c.us") s = (.ok isRegistered, s1)) :
    (checkNumber c true body now s).response.status = 200 ∧
    (checkNumber c true body now s).response.body =
      .obj [("success", .bool true), ("number", .str cleaned),
            ("isRegistered", .bool isRegistered), ("timestamp", .str now)] ∧
    (checkNumber c true body now s).trace = [.isRegisteredUser (cleaned ++ "@c.us")] ∧
    (checkNumber c true body now s).state = s1 := by
  have hc : stripNonDigits number = cleaned := by
    simpa [formatPhoneNumber] using hclean
  have hne : number ≠ "" := by
    rintro rfl
    rw [← hc] at hlen
    revert hlen
    decide
  have h := checkNumber_string c body now s number hbody hne
  rw [hc, if_neg (by omega), hanswer] at h
  simp [checkNumber, h, timestamp]

theorem checkNumber_returns_collaborator_answer_witness :
    (checkNumber sampleCollaborator true (.obj [("number", .str "+1 (234) 567-8901")])
        "2026-01-01T00:00:00.000Z" 0).response.body =
      .obj [("success", .bool true), ("number", .str "12345678901"),
            ("isRegistered", .bool true), ("timestamp", .str "2026-01-01T00:00:00.000Z")] :=
  (checkNumber_returns_collaborator_answer sampleCollaborator
    (.obj [("number", .str "+1 (234) 567-8901")]) "2026-01-01T00:00:00.000Z" 0 1
    "+1 (234) 567-8901" "12345678901" true rfl rfl (by decide) rfl).2.1

/-! ## `/send-image` -/

/-- Destructuring either throws for every property name or for none. -/
theorem destructure_ok_of_ok (body : JsVal) (key other : String) (v : JsVal)
    (h : destructure body key = .ok v) : ∃ w, destructure body other = .ok w := by
  cases body <;> simp [destructure] at h ⊢

/-- C8: with the client ready and a request that passes validation (`number`
and `imageUrl` present, cleaned number of at least 10 digits), if the
collaborator answers that the number is not registered then `/send-image`
answers 404 and its whole effect trace is that one registration query: no
`MessageMedia.fromUrl`, no `sendMessage`. -/
theorem sendImage_unregistered_gives_404_and_no_send {σ μ : Type} (c : Collaborator σ μ)
    (body : JsVal) (now : String) (s s1 : σ) (number imageUrl : JsVal) (cleaned : String)
    (hnumber : destructure body "number" = .ok number)
    (himage : destructure body "imageUrl" = .ok imageUrl)
    (hnum : truthy number = true) (himg : truthy imageUrl = true)
    (hclean : formatPhoneNumber number = .ok cleaned) (hlen : 10 ≤ cleaned.length)
    (hanswer : c.isRegisteredUser (cleaned ++ "@c.us") s = (.ok false, s1)) :
    (sendImage c true body now s).response.status = 404 ∧
    (sendImage c true body now s).trace = [.isRegisteredUser (cleaned ++ "@c.us")] := by
  obtain ⟨message, hmessage⟩ := destructure_ok_of_ok body "number" "message" number hnumber
  have hlt : ¬ cleaned.length < 10 := by omega
  simp [sendImage, sendImageTry, hnumber, himage, hmessage, hnum, himg, hclean, hlt, hanswer]

theorem sendImage_unregistered_gives_404_and_no_send_witness :
    (sendImage sampleCollaborator true
        (.obj [("number", .str "+94 77 123 4567"), ("imageUrl", .str "https://example.com/a.png")])
        "2026-01-01T00:00:00.000Z" 0).response.status = 404 ∧
    (sendImage sampleCollaborator true
        (.obj [("number", .str "+94 77 123 4567"), ("imageUrl", .str "https://example.com/a.png")])
        "2026-01-01T00:00:00.000Z" 0).trace = [.isRegisteredUser "94771234567@c.us"] :=
  sendImage_unregistered_gives_404_and_no_send sampleCollaborator
    (.obj [("number", .str "+94 77 123 4567"), ("imageUrl", .str "https://example.com/a.png")])
    "2026-01-01T00:00:00.000Z" 0 1 (.str "+94 77 123 4567") (.str "https://example.com/a.png")
    "94771234567" rfl rfl rfl rfl rfl (by decide) rfl

/-! ## The batch loop -/

/-- One iteration only appends to `results` and to the trace, and what it
appends depends on the collaborator state alone. -/
theorem checkNumbersItem_frame {σ μ : Type} (c : Collaborator σ μ) (number : JsVal)
    (st : LoopState σ μ) :
    checkNumbersItem c number st =
      { results := st.results ++ (checkNumbersItem c number (loopStart st.state)).results
        trace := st.trace ++ (checkNumbersItem c number (loopStart st.state)).trace
        state := (checkNumbersItem c number (loopStart st.state)).state } := by
  unfold checkNumbersItem
  cases hf : formatPhoneNumber number with
  | error e => simp [loopStart]
  | ok formattedNumber =>
    by_cases hlen : formattedNumber.length < 10
    · simp [loopStart, hlen]
    · rcases hq : c.isRegisteredUser (formattedNumber ++ "@c.us") st.state with ⟨r, s1⟩
      cases r <;> simp [loopStart, hlen, hq]

/-- Each iteration pushes exactly one entry. -/
theorem checkNumbersItem_results_length {σ μ : Type} (c : Collaborator σ μ) (number : JsVal)
    (s : σ) : (checkNumbersItem c number (loopStart s : LoopState σ μ)).results.length = 1 := by
  unfold checkNumbersItem
  cases hf : formatPhoneNumber number with
  | error e => simp [loopStart]
  | ok formattedNumber =>
    by_cases hlen : formattedNumber.length < 10
    · simp [loopStart, hlen]
    · rcases hq : c.isRegisteredUser (formattedNumber ++ "@c.us") s with ⟨r, s1⟩
      cases r <;> simp [loopStart, hlen, hq]

theorem checkNumbersLoop_frame {σ μ : Type} (c : Collaborator σ μ) (items : List JsVal)
    (st : LoopState σ μ) :
    checkNumbersLoop c items st =
      { results := st.results ++ (checkNumbersLoop c items (loopStart st.state)).results
        trace := st.trace ++ (checkNumbersLoop c items (loopStart st.state)).trace
        state := (checkNumbersLoop c items (loopStart st.state)).state } := by
  induction items generalizing st with
  | nil => simp [checkNumbersLoop, loopStart]
  | cons x xs ih =>
    simp only [checkNumbersLoop]
    rw [ih (checkNumbersItem c x st), ih (checkNumbersItem c x (loopStart st.state)),
      checkNumbersItem_frame c x st]
    simp [List.append_assoc]

theorem checkNumbersLoop_append {σ μ : Type} (c : Collaborator σ μ) (xs ys : List JsVal)
    (st : LoopState σ μ) :
    checkNumbersLoop c (xs ++ ys) st = checkNumbersLoop c ys (checkNumbersLoop c xs st) := by
  induction xs generalizing st with
  | nil => rfl
  | cons x xs ih => simp [checkNumbersLoop, ih]

/-- The results of a batch are the results of its first part followed by the
results of the rest, run from the state the first part left. -/
theorem checkNumbersLoop_results_append {σ μ : Type} (c : Collaborator σ μ)
    (xs ys : List JsVal) (s : σ) :
    (checkNumbersLoop c (xs ++ ys) (loopStart s : LoopState σ μ)).results =
      (checkNumbersLoop c xs (loopStart s : LoopState σ μ)).results ++
        (checkNumbersLoop c ys
          (loopStart (checkNumbersLoop c xs (loopStart s : LoopState σ μ)).state :
            LoopState σ μ)).results := by
  rw [checkNumbersLoop_append, checkNumbersLoop_frame c ys]

theorem checkNumbersLoop_results_cons {σ μ : Type} (c : Collaborator σ μ)
    (x : JsVal) (ys : List JsVal) (s : σ) :
    (checkNumbersLoop c (x :: ys) (loopStart s : LoopState σ μ)).results =
      (checkNumbersItem c x (loopStart s : LoopState σ μ)).results ++
        (checkNumbersLoop c ys
          (loopStart (checkNumbersItem c x (loopStart s : LoopState σ μ)).state :
            LoopState σ μ)).results := by
  simp only [checkNumbersLoop]
  rw [checkNumbersLoop_frame c ys]

/-- The loop pushes one entry per item. -/
theorem checkNumbersLoop_results_length {σ μ : Type} (c : Collaborator σ μ)
    (items : List JsVal) (s : σ) :
    (checkNumbersLoop c items (loopStart s : LoopState σ μ)).results.length = items.length := by
  induction items generalizing s with
  | nil => rfl
  | cons x xs ih =>
    rw [checkNumbersLoop_results_cons, List.length_append, checkNumbersItem_results_length, ih]
    simp [Nat.add_comm]

/-- The entry at index `i` of the results is the one entry pushed by the
iteration for item `i`, run in the state the first `i` items left. -/
theorem checkNumbersLoop_results_getElem? {σ μ : Type} (c : Collaborator σ μ)
    (items : List JsVal) (s : σ) (i : Nat) (hi : i < items.length) :
    (checkNumbersLoop c items (loopStart s : LoopState σ μ)).results[i]? =
      (checkNumbersItem c (items.get ⟨i, hi⟩)
        (loopStart (checkNumbersLoop c (items.take i) (loopStart s : LoopState σ μ)).state :
          LoopState σ μ)).results[0]? := by
  have hsplit : items = items.take i ++ items.get ⟨i, hi⟩ :: items.drop (i + 1) := by
    rw [List.get_eq_getElem, List.getElem_cons_drop, List.take_append_drop]
  have hpre : (checkNumbersLoop c (items.take i) (loopStart s : LoopState σ μ)).results.length
      = i := by
    rw [checkNumbersLoop_results_length, List.length_take]
    omega
  conv_lhs => rw [hsplit]
  rw [checkNumbersLoop_results_append, List.getElem?_append_right (by omega), hpre,
    Nat.sub_self, checkNumbersLoop_results_cons, List.getElem?_append_left]
  rw [checkNumbersItem_results_length]
  exact Nat.zero_lt_one

/-! ## `/check-numbers` -/

/-- The handler on a body whose `numbers` is an array of 1 to 50 items. -/
theorem checkNumbers_valid_size {σ μ : Type} (c : Collaborator σ μ) (body : JsVal)
    (now : String) (s : σ) (items : List JsVal)
    (hbody : destructure body "numbers" = .ok (.arr items))
    (hpos : 1 ≤ items.length) (hmax : items.length ≤ 50) :
    checkNumbers c true body now s =
      { response :=
          { status := 200
            body := .obj [("success", .bool true), ("total", .num items.length),
                          ("results", .arr (checkNumbersLoop c items (loopStart s)).results),
                          ("timestamp", .str now)] }
        trace := (checkNumbersLoop c items (loopStart s)).trace
        state := (checkNumbersLoop c items (loopStart s)).state } := by
  have h0 : items.length ≠ 0 := by omega
  have h50 : ¬ 50 < items.length := by omega
  have hne : items ≠ [] := by
    rintro rfl
    simp at hpos
  simp [checkNumbers, checkNumbersTry, hbody, truthy, isArray, arrayLength, arrayItems, h50,
    hne, timestamp]

theorem checkNumbersItem_invalid {σ μ : Type} (c : Collaborator σ μ) (number : JsVal)
    (cleaned : String) (s : σ) (hclean : formatPhoneNumber number = .ok cleaned)
    (hlen : cleaned.length < 10) :
    checkNumbersItem c number (loopStart s : LoopState σ μ) =
      { results := [.obj [("number", number), ("isRegistered", .bool false),
                          ("error", .str "Invalid phone number format")]]
        trace := [], state := s } := by
  simp [checkNumbersItem, hclean, hlen, loopStart]

theorem checkNumbersItem_answered {σ μ : Type} (c : Collaborator σ μ) (number : JsVal)
    (cleaned : String) (s s1 : σ) (isRegistered : Bool)
    (hclean : formatPhoneNumber number = .ok cleaned) (hlen : 10 ≤ cleaned.length)
    (hanswer : c.isRegisteredUser (cleaned ++ "@c.us") s = (.ok isRegistered, s1)) :
    checkNumbersItem c number (loopStart s : LoopState σ μ) =
      { results := [.obj [("number", .str cleaned), ("isRegistered", .bool isRegistered)]]
        trace := [.isRegisteredUser (cleaned ++ "@c.us"), .setTimeout 500], state := s1 } := by
  have hlt : ¬ cleaned.length < 10 := by omega
  simp [checkNumbersItem, hclean, hlt, loopStart, hanswer]

theorem checkNumbersItem_rejected {σ μ : Type} (c : Collaborator σ μ) (number : JsVal)
    (cleaned : String) (s s1 : σ) (error : JsError)
    (hclean : formatPhoneNumber number = .ok cleaned) (hlen : 10 ≤ cleaned.length)
    (hthrow : c.isRegisteredUser (cleaned ++ "@c.us") s = (.error error, s1)) :
    checkNumbersItem c number (loopStart s : LoopState σ μ) =
      { results := [.obj [("number", number), ("isRegistered", .bool false),
                          ("error", .str error.message)]]
        trace := [.isRegisteredUser (cleaned ++ "@c.us")], state := s1 } := by
  have hlt : ¬ cleaned.length < 10 := by omega
  simp [checkNumbersItem, hclean, hlt, loopStart, hthrow]

/-- C1: with the client ready, a batch of 1 to 50 strings and a collaborator
that answers every query without throwing, `/check-numbers` answers 200 with
`success: true`, `total` the number of inputs and a `results` list of that same
length. Entry `i` of it is the original string `i` with `isRegistered: false`
and the error `Invalid phone number format` when the cleaned string has fewer
than 10 digits; otherwise it is the cleaned string with the answer the
collaborator gave, at that point of the batch, for the cleaned string followed
by `@c.us`. -/
theorem checkNumbers_results_match_inputs {σ μ : Type} (c : Collaborator σ μ)
    (body : JsVal) (now : String) (s : σ) (numbers : List String)
    (hbody : destructure body "numbers" = .ok (.arr (numbers.map JsVal.str)))
    (hpos : 1 ≤ numbers.length) (hmax : numbers.length ≤ 50)
    (hcollab : ∀ numberId t, ∃ answer, (c.isRegisteredUser numberId t).1 = .ok answer) :
    ∃ results : List JsVal,
      (checkNumbers c true body now s).response.status = 200 ∧
      (checkNumbers c true body now s).response.body =
        .obj [("success", .bool true), ("total", .num numbers.length),
              ("results", .arr results), ("timestamp", .str now)] ∧
      results.length = numbers.length ∧
      ∀ (i : Nat) (hi : i < numbers.length),
        ∃ cleaned : String, formatPhoneNumber (.str (numbers.get ⟨i, hi⟩)) = .ok cleaned ∧
          (cleaned.length < 10 →
            results[i]? = some (.obj [("number", .str (numbers.get ⟨i, hi⟩)),
              ("isRegistered", .bool false), ("error", .str "Invalid phone number format")])) ∧
          (10 ≤ cleaned.length →
            ∃ answer : Bool,
              (c.isRegisteredUser (cleaned ++ "@c.us")
                (checkNumbersLoop c ((numbers.take i).map JsVal.str)
                  (loopStart s : LoopState σ μ)).state).1 = .ok answer ∧
              results[i]? = some (.obj [("number", .str cleaned),
                ("isRegistered", .bool answer)])) := by
  have hrun := checkNumbers_valid_size c body now s (numbers.map JsVal.str) hbody
    (by simpa using hpos) (by simpa using hmax)
  refine ⟨(checkNumbersLoop c (numbers.map JsVal.str) (loopStart s)).results, ?_, ?_, ?_, ?_⟩
  · rw [hrun]
  · rw [hrun]; simp
  · rw [checkNumbersLoop_results_length, List.length_map]
  · intro i hi
    have hi2 : i < (numbers.map JsVal.str).length := by simpa using hi
    have hget : (numbers.map JsVal.str).get ⟨i, hi2⟩ = .str (numbers.get ⟨i, hi⟩) := by
      simp
    have hentry := checkNumbersLoop_results_getElem? c (numbers.map JsVal.str) s i hi2
    rw [hget, ← List.map_take] at hentry
    refine ⟨stripNonDigits (numbers.get ⟨i, hi⟩), rfl, ?_, ?_⟩
    · intro hlen
      rw [hentry, checkNumbersItem_invalid c (.str (numbers.get ⟨i, hi⟩))
        (stripNonDigits (numbers.get ⟨i, hi⟩)) _ rfl hlen]
      rfl
    · intro hlen
      obtain ⟨answer, hanswer⟩ := hcollab (stripNonDigits (numbers.get ⟨i, hi⟩) ++ "@c.us")
        (checkNumbersLoop c ((numbers.take i).map JsVal.str) (loopStart s : LoopState σ μ)).state
      refine ⟨answer, hanswer, ?_⟩
      rcases hq : c.isRegisteredUser (stripNonDigits (numbers.get ⟨i, hi⟩) ++ "@c.us")
        (checkNumbersLoop c ((numbers.take i).map JsVal.str)
          (loopStart s : LoopState σ μ)).state with ⟨r, s1⟩
      rw [hq] at hanswer
      simp only at hanswer
      subst hanswer
      rw [hentry, checkNumbersItem_answered c (.str (numbers.get ⟨i, hi⟩))
        (stripNonDigits (numbers.get ⟨i, hi⟩)) _ s1 answer rfl hlen hq]
      rfl

/-- The example of C1: the batch `12345678901`, `bad`, the first registered, gives
`total` 2 and two entries in input order. -/
theorem checkNumbers_results_match_inputs_witness :
    ∃ results : List JsVal,
      (checkNumbers sampleCollaborator true
          (.obj [("numbers", .arr [.str "12345678901", .str "bad"])])
          "2026-01-01T00:00:00.000Z" 0).response.body =
        .obj [("success", .bool true), ("total", .num 2), ("results", .arr results),
              ("timestamp", .str "2026-01-01T00:00:00.000Z")] ∧
      results.length = 2 ∧
      results[0]? = some (.obj [("number", .str "12345678901"), ("isRegistered", .bool true)]) ∧
      results[1]? = some (.obj [("number", .str "bad"), ("isRegistered", .bool false),
                                ("error", .str "Invalid phone number format")]) := by
  obtain ⟨results, -, hbody, hlength, hall⟩ :=
    checkNumbers_results_match_inputs sampleCollaborator
      (.obj [("numbers", .arr [.str "12345678901", .str "bad"])])
      "2026-01-01T00:00:00.000Z" 0 ["12345678901", "bad"] rfl (by decide) (by decide)
      (fun numberId _ => ⟨numberId == "12345678901@c.us", rfl⟩)
  refine ⟨results, hbody, hlength, ?_, ?_⟩
  · obtain ⟨cleaned, hclean, -, hvalid⟩ := hall 0 (by decide)
    have h1 : (Except.ok (stripNonDigits "12345678901") : Except JsError String) = .ok cleaned :=
      hclean
    injection h1 with h1
    subst h1
    obtain ⟨answer, hanswer, hentry⟩ := hvalid (by decide)
    have h2 : (Except.ok (stripNonDigits "12345678901" ++ "@c.us" == "12345678901@c.us") :
        Except JsError Bool) = .ok answer := hanswer
    injection h2 with h2
    subst h2
    rw [hentry]
    rfl
  · obtain ⟨cleaned, hclean, hinvalid, -⟩ := hall 1 (by decide)
    have h1 : (Except.ok (stripNonDigits "bad") : Except JsError String) = .ok cleaned := hclean
    injection h1 with h1
    subst h1
    rw [hinvalid (by decide)]
    rfl

/-- C9: with the client ready and a batch of at most 50 items, if the
collaborator throws on the query for one item (the items before it are `pre`,
those after it `post`), `/check-numbers` still answers 200 with `success: true`
and one result per item in input order: the entries of the items before, then
for the failing item its original input with `isRegistered: false` and the
message of the exception, then the entries the loop produces for the items
after it, run from the state the failed call left. -/
theorem checkNumbers_isolates_failing_item {σ μ : Type} (c : Collaborator σ μ)
    (body : JsVal) (now : String) (s s1 : σ) (pre post : List JsVal) (number : JsVal)
    (cleaned : String) (error : JsError)
    (hbody : destructure body "numbers" = .ok (.arr (pre ++ number :: post)))
    (hmax : (pre ++ number :: post).length ≤ 50)
    (hclean : formatPhoneNumber number = .ok cleaned) (hlen : 10 ≤ cleaned.length)
    (hthrow : c.isRegisteredUser (cleaned ++ "@c.us")
      (checkNumbersLoop c pre (loopStart s : LoopState σ μ)).state = (.error error, s1)) :
    (checkNumbers c true body now s).response.status = 200 ∧
    (checkNumbers c true body now s).response.body =
      .obj [("success", .bool true), ("total", .num (pre ++ number :: post).length),
            ("results", .arr
              ((checkNumbersLoop c pre (loopStart s : LoopState σ μ)).results ++
                .obj [("number", number), ("isRegistered", .bool false),
                      ("error", .str error.message)] ::
                (checkNumbersLoop c post (loopStart s1 : LoopState σ μ)).results)),
            ("timestamp", .str now)] ∧
    (checkNumbersLoop c pre (loopStart s : LoopState σ μ)).results.length = pre.length ∧
    (checkNumbersLoop c post (loopStart s1 : LoopState σ μ)).results.length = post.length := by
  have hrun := checkNumbers_valid_size c body now s (pre ++ number :: post) hbody
    (by rw [List.length_append, List.length_cons]; omega) hmax
  have hitem := checkNumbersItem_rejected c number cleaned _ s1 error hclean hlen hthrow
  refine ⟨by rw [hrun], ?_, checkNumbersLoop_results_length c pre s,
    checkNumbersLoop_results_length c post s1⟩
  rw [hrun, checkNumbersLoop_results_append, checkNumbersLoop_results_cons, hitem]
  rfl

/-- An instance of C9: the query for the second of three numbers is rejected;
the third is still checked. -/
theorem checkNumbers_isolates_failing_item_witness :
    (checkNumbers failingCollaborator true
        (.obj [("numbers", .arr [.str "bad", .str "+1 000 000 0000", .str "12345678901"])])
        "2026-01-01T00:00:00.000Z" 0).response.body =
      .obj [("success", .bool true), ("total", .num 3),
            ("results", .arr [
              .obj [("number", .str "bad"), ("isRegistered", .bool false),
                    ("error", .str "Invalid phone number format")],
              .obj [("number", .str "+1 000 000 0000"), ("isRegistered", .bool false),
                    ("error", .str "Evaluation failed")],
              .obj [("number", .str "12345678901"), ("isRegistered", .bool true)]]),
            ("timestamp", .str "2026-01-01T00:00:00.000Z")] :=
  (checkNumbers_isolates_failing_item failingCollaborator
    (.obj [("numbers", .arr [.str "bad", .str "+1 000 000 0000", .str "12345678901"])])
    "2026-01-01T00:00:00.000Z" 0 1 [.str "bad"] [.str "12345678901"] (.str "+1 000 000 0000")
    "10000000000" ⟨"Evaluation failed"⟩ rfl (by decide) rfl (by decide) rfl).2.1

theorem destructure_ok_iff (body : JsVal) (key : String) :
    (∃ v, destructure body key = .ok v) ↔ body ≠ .undefined ∧ body ≠ .null := by
  cases body <;> simp [destructure]

theorem destructure_error_of_no_body (body : JsVal) (key : String)
    (h : body = .undefined ∨ body = .null) : ∃ error, destructure body key = .error error := by
  rcases h with rfl | rfl
  · exact ⟨_, rfl⟩
  · exact ⟨_, rfl⟩

/-- C7 as stated fails: a request without a body has no `numbers`, and with the
client ready `/check-numbers` answers it 500, not 400: reading `numbers` from the
missing body throws into the outer `catch`. -/
theorem checkNumbers_without_body_gives_500 :
    (checkNumbers sampleCollaborator true .undefined
        "2026-01-01T00:00:00.000Z" 0).response.status = 500 ∧
    (checkNumbers sampleCollaborator true .undefined
        "2026-01-01T00:00:00.000Z" 0).response.status ≠ 400 := by
  refine ⟨rfl, ?_⟩
  show (500 : Nat) ≠ 400
  decide

/-- C7, amended: with the client ready and a request that has a body (`req.body`
is neither `undefined` nor `null`, so that `numbers` can be read from it),
`/check-numbers` answers 400 with an empty `results` list and performs no effect
when `numbers` is absent, is not an array, is an empty array, or is an array of
more than 50 items; an array of exactly 50 items is processed: the answer is 200
with `total` 50 and 50 result entries. A request without a body is answered 500
with an empty `results` list and no effect. -/
theorem checkNumbers_size_validation {σ μ : Type} (c : Collaborator σ μ)
    (body : JsVal) (now : String) (s : σ) :
    (body ≠ .undefined → body ≠ .null →
      ∃ numbers, destructure body "numbers" = .ok numbers) ∧
    (∀ numbers : JsVal, destructure body "numbers" = .ok numbers →
      ((numbers = .undefined ∨ isArray numbers = false ∨ numbers = .arr [] ∨
          50 < arrayLength numbers) →
        (checkNumbers c true body now s).response.status = 400 ∧
        getField "results" (checkNumbers c true body now s).response.body = .arr [] ∧
        (checkNumbers c true body now s).trace = []) ∧
      (∀ items : List JsVal, numbers = .arr items → items.length = 50 →
        (checkNumbers c true body now s).response.status = 200 ∧
        getField "total" (checkNumbers c true body now s).response.body = .num 50 ∧
        ∃ results : List JsVal,
          getField "results" (checkNumbers c true body now s).response.body = .arr results ∧
          results.length = 50)) ∧
    ((body = .undefined ∨ body = .null) →
      (checkNumbers c true body now s).response.status = 500 ∧
      getField "results" (checkNumbers c true body now s).response.body = .arr [] ∧
      (checkNumbers c true body now s).trace = []) := by
  refine ⟨fun h1 h2 => (destructure_ok_iff body "numbers").mpr ⟨h1, h2⟩, ?_, ?_⟩
  · intro numbers hbody
    constructor
    · intro hbad
      by_cases h1 : (!truthy numbers || !isArray numbers || arrayLength numbers == 0) = true
      · simp [checkNumbers, checkNumbersTry, hbody, h1, getField, lookupField]
      · have h2 : 50 < arrayLength numbers := by
          rcases hbad with h | h | h | h
          · subst h; simp [truthy] at h1
          · simp [h] at h1
          · subst h; simp [arrayLength] at h1
          · exact h
        simp [checkNumbers, checkNumbersTry, hbody, h1, h2, getField, lookupField]
    · intro items hitems hlen
      subst hitems
      have hrun := checkNumbers_valid_size c body now s items hbody (by omega) (by omega)
      rw [hrun]
      refine ⟨rfl, ?_, (checkNumbersLoop c items (loopStart s)).results, ?_, ?_⟩
      · simp [getField, lookupField, hlen]
      · simp [getField, lookupField]
      · rw [checkNumbersLoop_results_length, hlen]
  · intro hno
    obtain ⟨error, herror⟩ := destructure_error_of_no_body body "numbers" hno
    simp [checkNumbers, checkNumbersTry, herror, getField, lookupField]

/-- The examples of C7: an empty array and an array of 51 items are answered 400
without any effect. -/
theorem checkNumbers_size_validation_witness :
    ((checkNumbers sampleCollaborator true (.obj [("numbers", .arr [])])
        "2026-01-01T00:00:00.000Z" 0).response.status = 400 ∧
      (checkNumbers sampleCollaborator true (.obj [("numbers", .arr [])])
        "2026-01-01T00:00:00.000Z" 0).trace = []) ∧
    ((checkNumbers sampleCollaborator true
        (.obj [("numbers", .arr (List.replicate 51 (.str "12345678901")))])
        "2026-01-01T00:00:00.000Z" 0).response.status = 400 ∧
      (checkNumbers sampleCollaborator true
        (.obj [("numbers", .arr (List.replicate 51 (.str "12345678901")))])
        "2026-01-01T00:00:00.000Z" 0).trace = []) := by
  have h0 := ((checkNumbers_size_validation sampleCollaborator (.obj [("numbers", .arr [])])
    "2026-01-01T00:00:00.000Z" 0).2.1 (.arr []) rfl).1 (Or.inr (Or.inr (Or.inl rfl)))
  have h51 := ((checkNumbers_size_validation sampleCollaborator
    (.obj [("numbers", .arr (List.replicate 51 (.str "12345678901")))])
    "2026-01-01T00:00:00.000Z" 0).2.1 (.arr (List.replicate 51 (.str "12345678901"))) rfl).1
    (Or.inr (Or.inr (Or.inr (by decide))))
  exact ⟨⟨h0.1, h0.2.2⟩, ⟨h51.1, h51.2.2⟩⟩

/-! ## The `success` and `timestamp` fields of the responses -/

theorem checkNumberTry_fields {σ μ : Type} (c : Collaborator σ μ) (isClientReady : Bool)
    (body : JsVal) (now : String) (s s1 : σ) (response : Response) (trace : List (Effect μ))
    (h : checkNumberTry c isClientReady body now s = (.ok response, trace, s1)) :
    successAndTimestampIff200 response := by
  unfold checkNumberTry at h
  repeat' first | split at h | (dsimp only at h; split at h)
  all_goals first
    | (simp at h; done)
    | (simp only [Prod.mk.injEq, Except.ok.injEq] at h
       obtain ⟨rfl, -, -⟩ := h
       simp [successAndTimestampIff200, hasField])

theorem checkNumber_fields {σ μ : Type} (c : Collaborator σ μ) (isClientReady : Bool)
    (body : JsVal) (now : String) (s : σ) :
    successAndTimestampIff200 (checkNumber c isClientReady body now s).response := by
  unfold checkNumber
  split
  · next response trace s1 h => exact checkNumberTry_fields c isClientReady body now s s1 _ _ h
  · simp [successAndTimestampIff200, hasField]

theorem checkNumbersTry_fields {σ μ : Type} (c : Collaborator σ μ) (isClientReady : Bool)
    (body : JsVal) (now : String) (s s1 : σ) (response : Response) (trace : List (Effect μ))
    (h : checkNumbersTry c isClientReady body now s = (.ok response, trace, s1)) :
    successAndTimestampIff200 response := by
  unfold checkNumbersTry at h
  repeat' split at h
  all_goals first
    | (simp at h; done)
    | (simp only [Prod.mk.injEq, Except.ok.injEq] at h
       obtain ⟨rfl, -, -⟩ := h
       simp [successAndTimestampIff200, hasField])

theorem checkNumbers_fields {σ μ : Type} (c : Collaborator σ μ) (isClientReady : Bool)
    (body : JsVal) (now : String) (s : σ) :
    successAndTimestampIff200 (checkNumbers c isClientReady body now s).response := by
  unfold checkNumbers
  split
  · next response trace s1 h => exact checkNumbersTry_fields c isClientReady body now s s1 _ _ h
  · simp [successAndTimestampIff200, hasField]

theorem sendImageTry_fields {σ μ : Type} (c : Collaborator σ μ) (isClientReady : Bool)
    (body : JsVal) (now : String) (s s1 : σ) (response : Response) (trace : List (Effect μ))
    (h : sendImageTry c isClientReady body now s = (.ok response, trace, s1)) :
    successAndTimestampIff200 response := by
  unfold sendImageTry at h
  repeat' first | split at h | (dsimp only at h; split at h)
  all_goals first
    | (simp at h; done)
    | (simp only [Prod.mk.injEq, Except.ok.injEq] at h
       obtain ⟨rfl, -, -⟩ := h
       simp [successAndTimestampIff200, hasField])

theorem sendImage_fields {σ μ : Type} (c : Collaborator σ μ) (isClientReady : Bool)
    (body : JsVal) (now : String) (s : σ) :
    successAndTimestampIff200 (sendImage c isClientReady body now s).response := by
  unfold sendImage
  split
  · next response trace s1 h => exact sendImageTry_fields c isClientReady body now s s1 _ _ h
  · simp [successAndTimestampIff200, hasField]

/-- C10 as stated fails: the body of `/health` has no `success` flag, and the
error responses of the three `POST` operations (here the 503 of a client that is
not ready, and the 400 of `/check-number` without a number) have no
`timestamp`. -/
theorem not_every_response_has_success_and_timestamp :
    hasSuccessAndTimestamp (health true "2026-01-01T00:00:00.000Z").body = false ∧
    hasSuccessAndTimestamp
      (checkNumber sampleCollaborator false (.obj [("number", .str "12345678901")])
        "2026-01-01T00:00:00.000Z" 0).response.body = false ∧
    hasSuccessAndTimestamp
      (checkNumbers sampleCollaborator false (.obj [("numbers", .arr [.str "12345678901"])])
        "2026-01-01T00:00:00.000Z" 0).response.body = false ∧
    hasSuccessAndTimestamp
      (sendImage sampleCollaborator false (.obj [("number", .str "12345678901")])
        "2026-01-01T00:00:00.000Z" 0).response.body = false ∧
    hasSuccessAndTimestamp
      (checkNumber sampleCollaborator true (.obj []) "2026-01-01T00:00:00.000Z" 0).response.body
      = false := by
  refine ⟨rfl, rfl, rfl, rfl, rfl⟩

/-- C10, amended: for every request and every readiness state, `/status`
answers 200 with the body `success: true`, `isReady`, `timestamp`, so with both
`success` and `timestamp`; `/health` answers 200 with the body `status: ok`,
`whatsappReady`, `timestamp`, so with a `timestamp` and without `success`; each
of `/check-number`, `/check-numbers` and `/send-image` returns a body with
`success`, which has a `timestamp` exactly when the status is 200. -/
theorem success_always_timestamp_on_200 {σ μ : Type} (c : Collaborator σ μ)
    (isClientReady : Bool) (body : JsVal) (now : String) (s : σ) :
    ((status isClientReady now).status = 200 ∧
      (status isClientReady now).body =
        .obj [("success", .bool true), ("isReady", .bool isClientReady),
              ("timestamp", .str now)] ∧
      hasSuccessAndTimestamp (status isClientReady now).body = true) ∧
    ((health isClientReady now).status = 200 ∧
      (health isClientReady now).body =
        .obj [("status", .str "ok"), ("whatsappReady", .bool isClientReady),
              ("timestamp", .str now)] ∧
      hasField "status" (health isClientReady now).body = true ∧
      hasField "whatsappReady" (health isClientReady now).body = true ∧
      hasField "timestamp" (health isClientReady now).body = true ∧
      hasField "success" (health isClientReady now).body = false) ∧
    successAndTimestampIff200 (checkNumber c isClientReady body now s).response ∧
    successAndTimestampIff200 (checkNumbers c isClientReady body now s).response ∧
    successAndTimestampIff200 (sendImage c isClientReady body now s).response :=
  ⟨⟨rfl, rfl, rfl⟩, ⟨rfl, rfl, rfl, rfl, rfl, rfl⟩, checkNumber_fields c isClientReady body now s,
    checkNumbers_fields c isClientReady body now s, sendImage_fields c isClientReady body now s⟩

/-! ## The readiness flag -/

theorem lowersReadiness_eq_false (e : ClientEvent) :
    lowersReadiness e = false ↔
      (∀ msg, e ≠ .auth_failure msg) ∧ (∀ reason, e ≠ .disconnected reason) := by
  cases e <;> simp [lowersReadiness]

/-- The flag after a run of events from any starting value: it is true when it
started true and no event lowered it, or when a `ready` event is followed by no
lowering event. -/
theorem foldl_onClientEvent_eq_true (flag : Bool) (events : List ClientEvent) :
    events.foldl onClientEvent flag = true ↔
      (flag = true ∧ ∀ e ∈ events, lowersReadiness e = false) ∨
      ∃ pre post, events = pre ++ ClientEvent.ready :: post ∧
        ∀ e ∈ post, lowersReadiness e = false := by
  induction events generalizing flag with
  | nil => simp
  | cons e es ih =>
    rw [List.foldl_cons, ih]
    constructor
    · rintro (⟨hflag, hno⟩ | ⟨pre, post, rfl, hno⟩)
      · cases e with
        | ready => exact Or.inr ⟨[], es, rfl, hno⟩
        | qr q =>
          refine Or.inl ⟨by simpa [onClientEvent] using hflag, ?_⟩
          intro x hx
          rcases List.mem_cons.mp hx with rfl | hx
          · rfl
          · exact hno x hx
        | authenticated =>
          refine Or.inl ⟨by simpa [onClientEvent] using hflag, ?_⟩
          intro x hx
          rcases List.mem_cons.mp hx with rfl | hx
          · rfl
          · exact hno x hx
        | auth_failure msg => simp [onClientEvent] at hflag
        | disconnected reason => simp [onClientEvent] at hflag
      · exact Or.inr ⟨e :: pre, post, rfl, hno⟩
    · rintro (⟨hflag, hno⟩ | ⟨pre, post, heq, hno⟩)
      · have he := hno e (List.mem_cons_self e es)
        have hes : ∀ x ∈ es, lowersReadiness x = false :=
          fun x hx => hno x (List.mem_cons_of_mem e hx)
        refine Or.inl ⟨?_, hes⟩
        cases e <;> simp [lowersReadiness] at he <;> simp [onClientEvent, hflag]
      · cases pre with
        | nil =>
          simp only [List.nil_append, List.cons.injEq] at heq
          obtain ⟨rfl, rfl⟩ := heq
          exact Or.inl ⟨rfl, hno⟩
        | cons p pre1 =>
          simp only [List.cons_append, List.cons.injEq] at heq
          obtain ⟨rfl, rfl⟩ := heq
          exact Or.inr ⟨pre1, post, rfl, hno⟩

/-- C11: the readiness flag starts false; after any sequence of lifecycle events
it is true if and only if the sequence contains a `ready` event with no
`auth_failure` and no `disconnected` event after it; the handlers of `qr` and
`authenticated` leave the flag as it is. -/
theorem readiness_flag_tracks_last_ready (events : List ClientEvent) :
    isClientReadyAfter [] = false ∧
    (isClientReadyAfter events = true ↔
      ∃ pre post, events = pre ++ ClientEvent.ready :: post ∧
        ∀ e ∈ post, (∀ msg, e ≠ .auth_failure msg) ∧ (∀ reason, e ≠ .disconnected reason)) ∧
    (∀ (flag : Bool) (q : String), onClientEvent flag (.qr q) = flag) ∧
    (∀ flag : Bool, onClientEvent flag .authenticated = flag) := by
  refine ⟨rfl, ?_, fun _ _ => rfl, fun _ => rfl⟩
  unfold isClientReadyAfter
  rw [foldl_onClientEvent_eq_true]
  simp only [Bool.false_eq_true, false_and, false_or, lowersReadiness_eq_false]

/-! ## Shutdown -/

/-- Once `isShuttingDown` is set, every further `SIGINT` returns at the guard. -/
theorem deliverSigints_shutting_down (g : Globals) (teardowns : List Settlement)
    (h : g.isShuttingDown = true) :
    ∀ run ∈ deliverSigints g teardowns, run.exit = none ∧ run.destroyCalls = 0 := by
  induction teardowns with
  | nil => simp [deliverSigints]
  | cons t rest ih =>
    have hrun : sigintHandler g t =
        { globals := g, destroyCalls := 0, loggedComplete := false, exit := none } := by
      simp [sigintHandler, h]
    intro run hmem
    simp only [deliverSigints, hrun, List.mem_cons] at hmem
    rcases hmem with rfl | hmem
    · exact ⟨rfl, rfl⟩
    · exact ih run hmem

theorem totalDestroyCalls_eq_zero (runs : List SigintRun)
    (h : ∀ run ∈ runs, run.exit = none ∧ run.destroyCalls = 0) :
    totalDestroyCalls runs = 0 ∧ shutdownsStarted runs = 0 := by
  induction runs with
  | nil => simp [totalDestroyCalls, shutdownsStarted]
  | cons r rs ih =>
    have hr := h r (List.mem_cons_self r rs)
    have hrs := ih fun run hrun => h run (List.mem_cons_of_mem r hrun)
    simp only [totalDestroyCalls, shutdownsStarted] at hrs ⊢
    simp [hr.1, hr.2, hrs.1, hrs.2]

/-- The first `SIGINT`: the guard flag is set, `client.destroy()` is called once
if there is a client, and `process.exit` is reached. -/
theorem sigintHandler_first (g : Globals) (teardown : Settlement)
    (h : g.isShuttingDown = false) :
    (sigintHandler g teardown).globals.isShuttingDown = true ∧
    (sigintHandler g teardown).destroyCalls = (if g.client then 1 else 0) ∧
    ∃ after, after ≤ 3000 ∧ (sigintHandler g teardown).exit = some ⟨0, after⟩ := by
  cases hc : g.client
  · simp [sigintHandler, h, hc]
  · cases teardown with
    | resolves after =>
      by_cases hlt : after < 3000
      · simp [sigintHandler, h, hc, raceWithTimer, hlt]; omega
      · simp [sigintHandler, h, hc, raceWithTimer, hlt]
    | rejects after error =>
      by_cases hlt : after < 3000
      · simp [sigintHandler, h, hc, raceWithTimer, hlt]; omega
      · simp [sigintHandler, h, hc, raceWithTimer, hlt]
    | never => simp [sigintHandler, h, hc, raceWithTimer]

/-- C12: for every sequence of `SIGINT` deliveries, `client.destroy()` is
called at most once. When the guard flag is initially false, the first `SIGINT`
sets it and starts the one shutdown sequence, calling `client.destroy()` once if
a client exists; every later `SIGINT` returns at the guard without requesting
teardown. -/
theorem sigint_starts_teardown_at_most_once (g : Globals) (teardowns : List Settlement) :
    totalDestroyCalls (deliverSigints g teardowns) ≤ 1 ∧
    (g.isShuttingDown = false → ∀ first rest, teardowns = first :: rest →
      shutdownsStarted (deliverSigints g teardowns) = 1 ∧
      totalDestroyCalls (deliverSigints g teardowns) = (if g.client then 1 else 0) ∧
      (sigintHandler g first).globals.isShuttingDown = true ∧
      ∀ run ∈ deliverSigints (sigintHandler g first).globals rest,
        run.exit = none ∧ run.destroyCalls = 0) := by
  have hfirst : g.isShuttingDown = false → ∀ first rest, teardowns = first :: rest →
      shutdownsStarted (deliverSigints g teardowns) = 1 ∧
      totalDestroyCalls (deliverSigints g teardowns) = (if g.client then 1 else 0) ∧
      (sigintHandler g first).globals.isShuttingDown = true ∧
      ∀ run ∈ deliverSigints (sigintHandler g first).globals rest,
        run.exit = none ∧ run.destroyCalls = 0 := by
    intro h first rest hts
    subst hts
    obtain ⟨hflag, hcalls, after, -, hexit⟩ := sigintHandler_first g first h
    have hlater := deliverSigints_shutting_down (sigintHandler g first).globals rest hflag
    have hzero := totalDestroyCalls_eq_zero _ hlater
    refine ⟨?_, ?_, hflag, hlater⟩
    · have h0 := hzero.2
      simp only [shutdownsStarted] at h0 ⊢
      simp [deliverSigints, hexit, h0]
    · have h0 := hzero.1
      simp only [totalDestroyCalls] at h0 ⊢
      simp [deliverSigints, hcalls, h0]
  refine ⟨?_, hfirst⟩
  cases hs : g.isShuttingDown
  · cases teardowns with
    | nil => simp [deliverSigints, totalDestroyCalls]
    | cons first rest =>
      rw [(hfirst hs first rest rfl).2.1]
      split <;> omega
  · rw [(totalDestroyCalls_eq_zero _ (deliverSigints_shutting_down g teardowns hs)).1]
    omega

/-- Two `SIGINT`s in a row on a process with a client, a teardown that never
settles: one shutdown sequence, one `client.destroy()` call. -/
theorem sigint_starts_teardown_at_most_once_witness :
    shutdownsStarted (deliverSigints { client := true, isShuttingDown := false }
      [Settlement.never, Settlement.never]) = 1 ∧
    totalDestroyCalls (deliverSigints { client := true, isShuttingDown := false }
      [Settlement.never, Settlement.never]) = 1 := by
  have h := (sigint_starts_teardown_at_most_once { client := true, isShuttingDown := false }
    [Settlement.never, Settlement.never]).2 rfl Settlement.never [Settlement.never] rfl
  exact ⟨h.1, h.2.1⟩

/-- C13: on the first `SIGINT` (guard flag false), whatever the teardown call
does (resolves, rejects with an error, never settles) and also when there is no
client, the handler reaches `process.exit(0)`, at most 3000 after the signal; a
rejection that wins the race is swallowed: it only skips the `Shutdown complete`
log line. -/
theorem shutdown_always_exits_zero (g : Globals) (teardown : Settlement)
    (h : g.isShuttingDown = false) :
    (∃ after, after ≤ 3000 ∧ (sigintHandler g teardown).exit = some ⟨0, after⟩) ∧
    (g.client = false → (sigintHandler g teardown).exit = some ⟨0, 0⟩) ∧
    (g.client = true → teardown = .never →
      (sigintHandler g teardown).exit = some ⟨0, 3000⟩) ∧
    (∀ after error, g.client = true → teardown = .rejects after error → after < 3000 →
      (sigintHandler g teardown).exit = some ⟨0, after⟩ ∧
      (sigintHandler g teardown).loggedComplete = false) := by
  refine ⟨(sigintHandler_first g teardown h).2.2, ?_, ?_, ?_⟩
  · intro hc
    simp [sigintHandler, h, hc]
  · intro hc ht
    subst ht
    simp [sigintHandler, h, hc, raceWithTimer]
  · intro after error hc ht hlt
    subst ht
    simp [sigintHandler, h, hc, raceWithTimer, hlt]

/-- A teardown that rejects at once, one that never settles, and a process
without a client all end in `process.exit(0)`. -/
theorem shutdown_always_exits_zero_witness :
    (sigintHandler { client := true, isShuttingDown := false }
      (.rejects 0 ⟨"Protocol error: Target closed"⟩)).exit = some ⟨0, 0⟩ ∧
    (sigintHandler { client := true, isShuttingDown := false } .never).exit = some ⟨0, 3000⟩ ∧
    (sigintHandler { client := false, isShuttingDown := false } .never).exit = some ⟨0, 0⟩ :=
  ⟨((shutdown_always_exits_zero { client := true, isShuttingDown := false }
      (.rejects 0 ⟨"Protocol error: Target closed"⟩) rfl).2.2.2 0
      ⟨"Protocol error: Target closed"⟩ rfl rfl (by decide)).1,
   (shutdown_always_exits_zero { client := true, isShuttingDown := false } .never rfl).2.2.1
      rfl rfl,
   (shutdown_always_exits_zero { client := false, isShuttingDown := false } .never rfl).2.1 rfl⟩

/-! ## Validation order of `/send-image` -/

/-- C14 as stated fails: a request without a body is missing both `number` and
`imageUrl`, and with the client ready `/send-image` answers it 500, not 400
`Phone number is required`: reading the fields from the missing body throws
into the outer `catch`. -/
theorem sendImage_without_body_gives_500 :
    (sendImage sampleCollaborator true .undefined
        "2026-01-01T00:00:00.000Z" 0).response.status = 500 ∧
    (sendImage sampleCollaborator true .undefined
        "2026-01-01T00:00:00.000Z" 0).response.status ≠ 400 ∧
    getField "error" (sendImage sampleCollaborator true .undefined
        "2026-01-01T00:00:00.000Z" 0).response.body ≠ .str "Phone number is required" := by
  refine ⟨rfl, ?_, ?_⟩
  · show (500 : Nat) ≠ 400
    decide
  · intro h
    have h2 : JsVal.str (messageOrDefault
        ⟨"Cannot destructure property \x27" ++ "number" ++
          "\x27 of \x27req.body\x27 as it is undefined."⟩) =
        JsVal.str "Phone number is required" := h
    injection h2 with h3
    revert h3
    decide

/-- C14, amended: with the client ready and a request that has a body
(`req.body` is neither `undefined` nor `null`, so that its fields can be read),
`/send-image` tests its preconditions in the order `number` present, `imageUrl`
present, cleaned number of at least 10 digits, and answers 400 with the message
of the first that fails, without any effect. In particular a request without
`imageUrl` is answered `imageUrl is required` whatever the digits of a present
`number`. A request without a body is answered 500 without any effect. -/
theorem sendImage_validation_order {σ μ : Type} (c : Collaborator σ μ)
    (body : JsVal) (now : String) (s : σ) :
    (body ≠ .undefined → body ≠ .null →
      ∃ number imageUrl, destructure body "number" = .ok number ∧
        destructure body "imageUrl" = .ok imageUrl) ∧
    (∀ number imageUrl : JsVal, destructure body "number" = .ok number →
      destructure body "imageUrl" = .ok imageUrl →
      (truthy number = false →
        (sendImage c true body now s).response.status = 400 ∧
        getField "error" (sendImage c true body now s).response.body
          = .str "Phone number is required" ∧
        (sendImage c true body now s).trace = []) ∧
      (truthy number = true → truthy imageUrl = false →
        (sendImage c true body now s).response.status = 400 ∧
        getField "error" (sendImage c true body now s).response.body
          = .str "imageUrl is required" ∧
        (sendImage c true body now s).trace = []) ∧
      (truthy number = true → truthy imageUrl = true →
        ∀ cleaned : String, formatPhoneNumber number = .ok cleaned → cleaned.length < 10 →
          (sendImage c true body now s).response.status = 400 ∧
          getField "error" (sendImage c true body now s).response.body
            = .str "Invalid phone number format" ∧
          (sendImage c true body now s).trace = [])) ∧
    ((body = .undefined ∨ body = .null) →
      (sendImage c true body now s).response.status = 500 ∧
      (sendImage c true body now s).trace = []) := by
  refine ⟨?_, ?_, ?_⟩
  · intro h1 h2
    obtain ⟨number, hnumber⟩ := (destructure_ok_iff body "number").mpr ⟨h1, h2⟩
    obtain ⟨imageUrl, himage⟩ := (destructure_ok_iff body "imageUrl").mpr ⟨h1, h2⟩
    exact ⟨number, imageUrl, hnumber, himage⟩
  · intro number imageUrl hnumber himage
    obtain ⟨message, hmessage⟩ := destructure_ok_of_ok body "number" "message" number hnumber
    refine ⟨?_, ?_, ?_⟩
    · intro hnum
      simp [sendImage, sendImageTry, hnumber, himage, hmessage, hnum, getField, lookupField]
    · intro hnum himg
      simp [sendImage, sendImageTry, hnumber, himage, hmessage, hnum, himg, getField,
        lookupField]
    · intro hnum himg cleaned hclean hlen
      simp [sendImage, sendImageTry, hnumber, himage, hmessage, hnum, himg, hclean, hlen,
        getField, lookupField]
  · intro hno
    obtain ⟨error, herror⟩ := destructure_error_of_no_body body "number" hno
    simp [sendImage, sendImageTry, herror]

/-- The two examples of C14: a request with an empty body object is answered
`Phone number is required`; one with the number `123` and no `imageUrl` is
answered `imageUrl is required`. -/
theorem sendImage_validation_order_witness :
    getField "error" (sendImage sampleCollaborator true (.obj [])
        "2026-01-01T00:00:00.000Z" 0).response.body = .str "Phone number is required" ∧
    getField "error" (sendImage sampleCollaborator true (.obj [("number", .str "123")])
        "2026-01-01T00:00:00.000Z" 0).response.body = .str "imageUrl is required" :=
  ⟨(((sendImage_validation_order sampleCollaborator (.obj []) "2026-01-01T00:00:00.000Z" 0).2.1
      .undefined .undefined rfl rfl).1 rfl).2.1,
   (((sendImage_validation_order sampleCollaborator (.obj [("number", .str "123")])
      "2026-01-01T00:00:00.000Z" 0).2.1 (.str "123") .undefined rfl rfl).2.1 rfl rfl).2.1⟩

/-! ## Errors of the collaborator in `/check-number` -/

/-- C15 as stated fails: when the collaborator throws an error whose message is
the empty string, the `error` field of the 500 response is not that message. -/
theorem empty_error_message_is_not_returned :
    (checkNumber (throwingCollaborator "") true (.obj [("number", .str "12345678901")])
        "2026-01-01T00:00:00.000Z" 0).response.status = 500 ∧
    getField "error" (checkNumber (throwingCollaborator "") true
        (.obj [("number", .str "12345678901")])
        "2026-01-01T00:00:00.000Z" 0).response.body = .str "Internal server error" ∧
    getField "error" (checkNumber (throwingCollaborator "") true
        (.obj [("number", .str "12345678901")])
        "2026-01-01T00:00:00.000Z" 0).response.body ≠ .str "" := by
  refine ⟨rfl, rfl, ?_⟩
  intro h
  have h2 : JsVal.str "Internal server error" = JsVal.str "" := h
  injection h2 with h3
  revert h3
  decide

/-- C15, amended: with the client ready and a valid number, when the
collaborator throws from the registration query `/check-number` answers 500; the
`error` field is the message of the exception when that message is not empty,
and `Internal server error` when it is empty. -/
theorem checkNumber_collaborator_error_gives_500 {σ μ : Type} (c : Collaborator σ μ)
    (body : JsVal) (now : String) (s s1 : σ) (number cleaned : String) (error : JsError)
    (hbody : destructure body "number" = .ok (.str number))
    (hclean : formatPhoneNumber (.str number) = .ok cleaned)
    (hlen : 10 ≤ cleaned.length)
    (hthrow : c.isRegisteredUser (cleaned ++ "@c.us") s = (.error error, s1)) :
    (checkNumber c true body now s).response.status = 500 ∧
    (error.message ≠ "" →
      getField "error" (checkNumber c true body now s).response.body = .str error.message) ∧
    (error.message = "" →
      getField "error" (checkNumber c true body now s).response.body
        = .str "Internal server error") := by
  have hc : stripNonDigits number = cleaned := by
    simpa [formatPhoneNumber] using hclean
  have hne : number ≠ "" := by
    rintro rfl
    rw [← hc] at hlen
    revert hlen
    decide
  have h := checkNumber_string c body now s number hbody hne
  rw [hc, if_neg (by omega), hthrow] at h
  refine ⟨by simp [checkNumber, h], ?_, ?_⟩
  · intro hmsg
    simp [checkNumber, h, getField, lookupField, messageOrDefault, hmsg]
  · intro hmsg
    simp [checkNumber, h, getField, lookupField, messageOrDefault, hmsg]

theorem checkNumber_collaborator_error_gives_500_witness :
    (checkNumber failingCollaborator true (.obj [("number", .str "+1 000 000 0000")])
        "2026-01-01T00:00:00.000Z" 0).response.status = 500 ∧
    getField "error" (checkNumber failingCollaborator true
        (.obj [("number", .str "+1 000 000 0000")])
        "2026-01-01T00:00:00.000Z" 0).response.body = .str "Evaluation failed" := by
  have h := checkNumber_collaborator_error_gives_500 failingCollaborator
    (.obj [("number", .str "+1 000 000 0000")]) "2026-01-01T00:00:00.000Z" 0 1
    "+1 000 000 0000" "10000000000" ⟨"Evaluation failed"⟩ rfl rfl (by decide) rfl
  exact ⟨h.1, h.2.1 (by decide)⟩

/-! ## A `number` that is not a string -/

theorem formatPhoneNumber_nonstring (number : JsVal) (h : ∀ str, number ≠ .str str) :
    ∃ error, formatPhoneNumber number = .error error := by
  cases number with
  | str str => exact absurd rfl (h str)
  | undefined => exact ⟨_, rfl⟩
  | null => exact ⟨_, rfl⟩
  | bool b => exact ⟨_, rfl⟩
  | num n => exact ⟨_, rfl⟩
  | arr items => exact ⟨_, rfl⟩
  | obj fields => exact ⟨_, rfl⟩

/-- C19 as stated fails for `/send-image`: with the JSON number 12345678901 as
`number` and no `imageUrl`, the answer is 400 (`imageUrl is required`), not
500. -/
theorem nonstring_number_without_imageUrl_gives_400 :
    (sendImage sampleCollaborator true (.obj [("number", .num 12345678901)])
        "2026-01-01T00:00:00.000Z" 0).response.status = 400 ∧
    (sendImage sampleCollaborator true (.obj [("number", .num 12345678901)])
        "2026-01-01T00:00:00.000Z" 0).response.status ≠ 500 ∧
    getField "error" (sendImage sampleCollaborator true (.obj [("number", .num 12345678901)])
        "2026-01-01T00:00:00.000Z" 0).response.body = .str "imageUrl is required" := by
  refine ⟨rfl, ?_, rfl⟩
  show (400 : Nat) ≠ 500
  decide

/-- C19, amended: with the client ready and a `number` that is truthy but not a
string, `/check-number` answers 500 without any effect, and so does
`/send-image` when `imageUrl` is present: the cleaning step throws before the
digit count is tested. -/
theorem nonstring_number_gives_500 {σ μ : Type} (c : Collaborator σ μ)
    (body : JsVal) (now : String) (s : σ) (number : JsVal)
    (hnumber : destructure body "number" = .ok number)
    (htruthy : truthy number = true) (hns : ∀ str, number ≠ .str str) :
    ((checkNumber c true body now s).response.status = 500 ∧
      (checkNumber c true body now s).trace = []) ∧
    (∀ imageUrl : JsVal, destructure body "imageUrl" = .ok imageUrl → truthy imageUrl = true →
      (sendImage c true body now s).response.status = 500 ∧
      (sendImage c true body now s).trace = []) := by
  obtain ⟨error, herror⟩ := formatPhoneNumber_nonstring number hns
  refine ⟨?_, ?_⟩
  · simp [checkNumber, checkNumberTry, hnumber, htruthy, herror]
  · intro imageUrl himage himg
    obtain ⟨message, hmessage⟩ := destructure_ok_of_ok body "number" "message" number hnumber
    simp [sendImage, sendImageTry, hnumber, himage, hmessage, htruthy, himg, herror]

/-- The examples of C19: the JSON number 12345678901 sent to `/check-number`,
and the array holding the string `12345678901` sent to `/send-image` with an
`imageUrl`, are both answered 500 without any collaborator call. -/
theorem nonstring_number_gives_500_witness :
    ((checkNumber sampleCollaborator true (.obj [("number", .num 12345678901)])
        "2026-01-01T00:00:00.000Z" 0).response.status = 500 ∧
      (checkNumber sampleCollaborator true (.obj [("number", .num 12345678901)])
        "2026-01-01T00:00:00.000Z" 0).trace = []) ∧
    ((sendImage sampleCollaborator true
        (.obj [("number", .arr [.str "12345678901"]),
               ("imageUrl", .str "https://example.com/a.png")])
        "2026-01-01T00:00:00.000Z" 0).response.status = 500 ∧
      (sendImage sampleCollaborator true
        (.obj [("number", .arr [.str "12345678901"]),
               ("imageUrl", .str "https://example.com/a.png")])
        "2026-01-01T00:00:00.000Z" 0).trace = []) :=
  ⟨(nonstring_number_gives_500 sampleCollaborator (.obj [("number", .num 12345678901)])
      "2026-01-01T00:00:00.000Z" 0 (.num 12345678901) rfl rfl
      (fun _ h => JsVal.noConfusion h)).1,
   (nonstring_number_gives_500 sampleCollaborator
      (.obj [("number", .arr [.str "12345678901"]),
             ("imageUrl", .str "https://example.com/a.png")])
      "2026-01-01T00:00:00.000Z" 0 (.arr [.str "12345678901"]) rfl rfl
      (fun _ h => JsVal.noConfusion h)).2 (.str "https://example.com/a.png") rfl rfl⟩

/-! ## The effect trace of a batch -/

theorem checkNumbersLoop_trace_cons {σ μ : Type} (c : Collaborator σ μ)
    (x : JsVal) (ys : List JsVal) (s : σ) :
    (checkNumbersLoop c (x :: ys) (loopStart s : LoopState σ μ)).trace =
      (checkNumbersItem c x (loopStart s : LoopState σ μ)).trace ++
        (checkNumbersLoop c ys
          (loopStart (checkNumbersItem c x (loopStart s : LoopState σ μ)).state :
            LoopState σ μ)).trace := by
  simp only [checkNumbersLoop]
  rw [checkNumbersLoop_frame c ys]

theorem checkNumbersLoop_state_cons {σ μ : Type} (c : Collaborator σ μ)
    (x : JsVal) (ys : List JsVal) (s : σ) :
    (checkNumbersLoop c (x :: ys) (loopStart s : LoopState σ μ)).state =
      (checkNumbersLoop c ys
        (loopStart (checkNumbersItem c x (loopStart s : LoopState σ μ)).state :
          LoopState σ μ)).state := by
  simp only [checkNumbersLoop]
  rw [checkNumbersLoop_frame c ys]

theorem checkNumbersLoop_trace_append {σ μ : Type} (c : Collaborator σ μ)
    (xs ys : List JsVal) (s : σ) :
    (checkNumbersLoop c (xs ++ ys) (loopStart s : LoopState σ μ)).trace =
      (checkNumbersLoop c xs (loopStart s : LoopState σ μ)).trace ++
        (checkNumbersLoop c ys
          (loopStart (checkNumbersLoop c xs (loopStart s : LoopState σ μ)).state :
            LoopState σ μ)).trace := by
  rw [checkNumbersLoop_append, checkNumbersLoop_frame c ys]

theorem checkNumbersItem_uncleanable {σ μ : Type} (c : Collaborator σ μ) (number : JsVal)
    (error : JsError) (s : σ) (hclean : formatPhoneNumber number = .error error) :
    checkNumbersItem c number (loopStart s : LoopState σ μ) =
      { results := [.obj [("number", number), ("isRegistered", .bool false),
                          ("error", .str error.message)]]
        trace := [], state := s } := by
  simp [checkNumbersItem, hclean, loopStart]

/-- The trace the loop builds is the one the specification describes. -/
theorem checkNumbersLoop_trace_eq_expected {σ μ : Type} (c : Collaborator σ μ)
    (items : List JsVal) (s : σ) :
    (checkNumbersLoop c items (loopStart s : LoopState σ μ)).trace =
      expectedBatchTrace c items s := by
  induction items generalizing s with
  | nil => rfl
  | cons x xs ih =>
    rw [checkNumbersLoop_trace_cons, expectedBatchTrace]
    cases hf : formatPhoneNumber x with
    | error e =>
      rw [checkNumbersItem_uncleanable c x e s hf]
      simp [ih]
    | ok cleaned =>
      by_cases hlen : 10 ≤ cleaned.length
      · rcases hq : c.isRegisteredUser (cleaned ++ "@c.us") s with ⟨r, s1⟩
        cases r with
        | error e =>
          rw [checkNumbersItem_rejected c x cleaned s s1 e hf hlen hq]
          simp [ih, hlen, hq]
        | ok answer =>
          rw [checkNumbersItem_answered c x cleaned s s1 answer hf hlen hq]
          simp [ih, hlen, hq]
      · rw [checkNumbersItem_invalid c x cleaned s hf (by omega)]
        simp [ih, hlen]

/-- With a collaborator that never throws, the specified trace is the items'
own traces one after the other. -/
theorem expectedBatchTrace_answered {σ μ : Type} (c : Collaborator σ μ)
    (hcollab : ∀ numberId t, ∃ answer, (c.isRegisteredUser numberId t).1 = .ok answer)
    (items : List JsVal) (s : σ) :
    expectedBatchTrace c items s = items.flatMap answeredItemTrace := by
  induction items generalizing s with
  | nil => rfl
  | cons x xs ih =>
    rw [expectedBatchTrace, List.flatMap_cons, answeredItemTrace]
    cases hf : formatPhoneNumber x with
    | error e => simp [ih]
    | ok cleaned =>
      by_cases hlen : 10 ≤ cleaned.length
      · obtain ⟨answer, hanswer⟩ := hcollab (cleaned ++ "@c.us") s
        rcases hq : c.isRegisteredUser (cleaned ++ "@c.us") s with ⟨r, s1⟩
        rw [hq] at hanswer
        simp only at hanswer
        subst hanswer
        simp [ih, hlen, hq]
      · simp [ih, hlen]

/-- C16: with the client ready and a batch of 1 to 50 items, the effect trace of
`/check-numbers` is, item by item in input order: for an item whose cleaned form
has at least 10 digits one registration query, followed by one pause of 500 when
the query returns (also after the last item); nothing for an item that fails
validation. When no query throws, the trace is the concatenation over the items
of query and pause for the valid ones. -/
theorem checkNumbers_trace_is_sequential {σ μ : Type} (c : Collaborator σ μ)
    (body : JsVal) (now : String) (s : σ) (items : List JsVal)
    (hbody : destructure body "numbers" = .ok (.arr items))
    (hpos : 1 ≤ items.length) (hmax : items.length ≤ 50) :
    (checkNumbers c true body now s).trace = expectedBatchTrace c items s ∧
    ((∀ numberId t, ∃ answer, (c.isRegisteredUser numberId t).1 = .ok answer) →
      (checkNumbers c true body now s).trace = items.flatMap answeredItemTrace) := by
  have hrun := checkNumbers_valid_size c body now s items hbody hpos hmax
  have htrace : (checkNumbers c true body now s).trace = expectedBatchTrace c items s := by
    rw [hrun]
    exact checkNumbersLoop_trace_eq_expected c items s
  refine ⟨htrace, ?_⟩
  intro hcollab
  rw [htrace, expectedBatchTrace_answered c hcollab]

/-- An instance of C16: a registered number, an invalid one, and one whose query
is rejected. The first gives a query and a pause, the second nothing, the third
a query without a pause. -/
theorem checkNumbers_trace_is_sequential_witness :
    (checkNumbers failingCollaborator true
        (.obj [("numbers", .arr [.str "12345678901", .str "bad", .str "+1 000 000 0000"])])
        "2026-01-01T00:00:00.000Z" 0).trace =
      [.isRegisteredUser "12345678901@c.us", .setTimeout 500,
       .isRegisteredUser "10000000000@c.us"] :=
  (checkNumbers_trace_is_sequential failingCollaborator
    (.obj [("numbers", .arr [.str "12345678901", .str "bad", .str "+1 000 000 0000"])])
    "2026-01-01T00:00:00.000Z" 0 [.str "12345678901", .str "bad", .str "+1 000 000 0000"]
    rfl (by decide) (by decide)).1.trans rfl

/-- C17: with the client ready and a batch of at most 50 items that contains an
element that is not a string (the items before it are `pre`, those after it
`post`), cleaning that element throws and the error is caught for the item: its
result entry carries the original element as `number`, `isRegistered: false` and
the message of the error; no effect is performed for it; the items after it are
processed from the state the items before it left, and the response is a
success with one entry per item. -/
theorem checkNumbers_isolates_nonstring_item {σ μ : Type} (c : Collaborator σ μ)
    (body : JsVal) (now : String) (s : σ) (pre post : List JsVal) (element : JsVal)
    (hbody : destructure body "numbers" = .ok (.arr (pre ++ element :: post)))
    (hmax : (pre ++ element :: post).length ≤ 50)
    (hns : ∀ str, element ≠ .str str) :
    ∃ error : JsError, formatPhoneNumber element = .error error ∧
      (checkNumbers c true body now s).response.status = 200 ∧
      (checkNumbers c true body now s).response.body =
        .obj [("success", .bool true), ("total", .num (pre ++ element :: post).length),
              ("results", .arr
                ((checkNumbersLoop c pre (loopStart s : LoopState σ μ)).results ++
                  .obj [("number", element), ("isRegistered", .bool false),
                        ("error", .str error.message)] ::
                  (checkNumbersLoop c post
                    (loopStart (checkNumbersLoop c pre (loopStart s : LoopState σ μ)).state :
                      LoopState σ μ)).results)),
              ("timestamp", .str now)] ∧
      (checkNumbers c true body now s).trace =
        (checkNumbersLoop c pre (loopStart s : LoopState σ μ)).trace ++
          (checkNumbersLoop c post
            (loopStart (checkNumbersLoop c pre (loopStart s : LoopState σ μ)).state :
              LoopState σ μ)).trace ∧
      (checkNumbersLoop c pre (loopStart s : LoopState σ μ)).results.length = pre.length ∧
      (checkNumbersLoop c post
        (loopStart (checkNumbersLoop c pre (loopStart s : LoopState σ μ)).state :
          LoopState σ μ)).results.length = post.length := by
  obtain ⟨error, herror⟩ := formatPhoneNumber_nonstring element hns
  have hrun := checkNumbers_valid_size c body now s (pre ++ element :: post) hbody
    (by rw [List.length_append, List.length_cons]; omega) hmax
  have hitem := checkNumbersItem_uncleanable c element error
    (checkNumbersLoop c pre (loopStart s : LoopState σ μ)).state herror
  refine ⟨error, herror, by rw [hrun], ?_, ?_, checkNumbersLoop_results_length c pre s,
    checkNumbersLoop_results_length c post _⟩
  · rw [hrun, checkNumbersLoop_results_append, checkNumbersLoop_results_cons, hitem]
    rfl
  · rw [hrun]
    show (checkNumbersLoop c (pre ++ element :: post) (loopStart s)).trace = _
    rw [checkNumbersLoop_trace_append, checkNumbersLoop_trace_cons, hitem]
    rfl

/-- An instance of C17: `null` followed by a registered number. -/
theorem checkNumbers_isolates_nonstring_item_witness :
    (checkNumbers sampleCollaborator true
        (.obj [("numbers", .arr [.null, .str "12345678901"])])
        "2026-01-01T00:00:00.000Z" 0).response.body =
      .obj [("success", .bool true), ("total", .num 2),
            ("results", .arr [
              .obj [("number", .null), ("isRegistered", .bool false),
                    ("error", .str "Cannot read properties of null (reading \x27replace\x27)")],
              .obj [("number", .str "12345678901"), ("isRegistered", .bool true)]]),
            ("timestamp", .str "2026-01-01T00:00:00.000Z")] ∧
    (checkNumbers sampleCollaborator true
        (.obj [("numbers", .arr [.null, .str "12345678901"])])
        "2026-01-01T00:00:00.000Z" 0).trace =
      [.isRegisteredUser "12345678901@c.us", .setTimeout 500] := by
  obtain ⟨error, herror, -, hbody, htrace, -, -⟩ :=
    checkNumbers_isolates_nonstring_item sampleCollaborator
      (.obj [("numbers", .arr [.null, .str "12345678901"])])
      "2026-01-01T00:00:00.000Z" 0 [] [.str "12345678901"] .null rfl (by decide)
      (fun _ h => JsVal.noConfusion h)
  have h1 : (Except.error ⟨"Cannot read properties of null (reading \x27replace\x27)"⟩ :
      Except JsError String) = .error error := herror
  injection h1 with h1
  subst h1
  exact ⟨hbody.trans rfl, htrace.trans rfl⟩

/-! ## Identifiers passed to the collaborator -/

theorem formatPhoneNumber_ok_digits (number : JsVal) (d : String)
    (h : formatPhoneNumber number = .ok d) : ∀ ch ∈ d.data, isDigitChar ch := by
  cases number with
  | str str =>
    have hd : stripNonDigits str = d := by simpa [formatPhoneNumber] using h
    subst hd
    intro ch hch
    rw [stripNonDigits_data] at hch
    simpa using (List.mem_filter.mp hch).2
  | undefined => simp [formatPhoneNumber] at h
  | null => simp [formatPhoneNumber] at h
  | bool b => simp [formatPhoneNumber] at h
  | num n => simp [formatPhoneNumber] at h
  | arr items => simp [formatPhoneNumber] at h
  | obj fields => simp [formatPhoneNumber] at h

theorem isIdentifierOf_intro (number : JsVal) (d : String)
    (h : formatPhoneNumber number = .ok d) (hlen : ¬ d.length < 10) :
    isIdentifierOf number (d ++ "@c.us") :=
  ⟨d, h, rfl, by omega, formatPhoneNumber_ok_digits number d h⟩

/-- The trace of `/check-number` is empty or the one registration query for the
cleaned number. -/
theorem checkNumberTry_trace {σ μ : Type} (c : Collaborator σ μ) (isClientReady : Bool)
    (body : JsVal) (now : String) (s s1 : σ) (r : Except JsError Response)
    (trace : List (Effect μ))
    (h : checkNumberTry c isClientReady body now s = (r, trace, s1)) :
    trace = [] ∨ ∃ number d, destructure body "number" = .ok number ∧
      formatPhoneNumber number = .ok d ∧ ¬ d.length < 10 ∧
      trace = [.isRegisteredUser (d ++ "@c.us")] := by
  unfold checkNumberTry at h
  repeat' first | split at h | (dsimp only at h; split at h)
  all_goals simp only [Prod.mk.injEq] at h
  all_goals obtain ⟨-, rfl, -⟩ := h
  all_goals first
    | exact Or.inl rfl
    | exact Or.inr ⟨_, _, ‹_›, ‹_›, ‹_›, rfl⟩

theorem checkNumber_trace {σ μ : Type} (c : Collaborator σ μ) (isClientReady : Bool)
    (body : JsVal) (now : String) (s : σ) :
    (checkNumber c isClientReady body now s).trace = [] ∨
    ∃ number d, destructure body "number" = .ok number ∧
      formatPhoneNumber number = .ok d ∧ ¬ d.length < 10 ∧
      (checkNumber c isClientReady body now s).trace = [.isRegisteredUser (d ++ "@c.us")] := by
  unfold checkNumber
  split
  · next response trace s1 h => exact checkNumberTry_trace c isClientReady body now s s1 _ _ h
  · next error trace s1 h => exact checkNumberTry_trace c isClientReady body now s s1 _ _ h

/-- The trace of `/send-image` is empty, or starts with the registration query
for the cleaned number, followed possibly by the media fetch, followed possibly
by the send to that same identifier. -/
theorem sendImageTry_trace {σ μ : Type} (c : Collaborator σ μ) (isClientReady : Bool)
    (body : JsVal) (now : String) (s s1 : σ) (r : Except JsError Response)
    (trace : List (Effect μ))
    (h : sendImageTry c isClientReady body now s = (r, trace, s1)) :
    trace = [] ∨ ∃ number d, destructure body "number" = .ok number ∧
      formatPhoneNumber number = .ok d ∧ ¬ d.length < 10 ∧
      (trace = [.isRegisteredUser (d ++ "@c.us")] ∨
       (∃ url, trace = [.isRegisteredUser (d ++ "@c.us"), .fromUrl url]) ∨
       (∃ url media caption, trace =
          [.isRegisteredUser (d ++ "@c.us"), .fromUrl url,
           .sendMessage (d ++ "@c.us") media caption])) := by
  unfold sendImageTry at h
  repeat' first | split at h | (dsimp only at h; split at h)
  all_goals simp only [Prod.mk.injEq] at h
  all_goals obtain ⟨-, rfl, -⟩ := h
  all_goals first
    | exact Or.inl rfl
    | exact Or.inr ⟨_, _, ‹_›, ‹_›, ‹_›, Or.inl rfl⟩
    | exact Or.inr ⟨_, _, ‹_›, ‹_›, ‹_›, Or.inr (Or.inl ⟨_, rfl⟩)⟩
    | exact Or.inr ⟨_, _, ‹_›, ‹_›, ‹_›, Or.inr (Or.inr ⟨_, _, _, rfl⟩)⟩

theorem sendImage_trace {σ μ : Type} (c : Collaborator σ μ) (isClientReady : Bool)
    (body : JsVal) (now : String) (s : σ) :
    (sendImage c isClientReady body now s).trace = [] ∨
    ∃ number d, destructure body "number" = .ok number ∧
      formatPhoneNumber number = .ok d ∧ ¬ d.length < 10 ∧
      ((sendImage c isClientReady body now s).trace = [.isRegisteredUser (d ++ "@c.us")] ∨
       (∃ url, (sendImage c isClientReady body now s).trace =
          [.isRegisteredUser (d ++ "@c.us"), .fromUrl url]) ∨
       (∃ url media caption, (sendImage c isClientReady body now s).trace =
          [.isRegisteredUser (d ++ "@c.us"), .fromUrl url,
           .sendMessage (d ++ "@c.us") media caption])) := by
  unfold sendImage
  split
  · next response trace s1 h => exact sendImageTry_trace c isClientReady body now s s1 _ _ h
  · next error trace s1 h => exact sendImageTry_trace c isClientReady body now s s1 _ _ h

theorem checkNumbersItem_trace_ids {σ μ : Type} (c : Collaborator σ μ) (number : JsVal)
    (s : σ) (e : Effect μ) (numberId : String)
    (he : e ∈ (checkNumbersItem c number (loopStart s : LoopState σ μ)).trace)
    (hid : effectId e = some numberId) : isIdentifierOf number numberId := by
  cases hf : formatPhoneNumber number with
  | error error =>
    rw [checkNumbersItem_uncleanable c number error s hf] at he
    simp at he
  | ok cleaned =>
    by_cases hlen : cleaned.length < 10
    · rw [checkNumbersItem_invalid c number cleaned s hf hlen] at he
      simp at he
    · have hident := isIdentifierOf_intro number cleaned hf hlen
      rcases hq : c.isRegisteredUser (cleaned ++ "@c.us") s with ⟨r, s1⟩
      cases r with
      | error error =>
        rw [checkNumbersItem_rejected c number cleaned s s1 error hf (by omega) hq] at he
        simp only [List.mem_singleton] at he
        subst he
        simp only [effectId, Option.some.injEq] at hid
        subst hid
        exact hident
      | ok answer =>
        rw [checkNumbersItem_answered c number cleaned s s1 answer hf (by omega) hq] at he
        simp only [List.mem_cons, List.mem_singleton] at he
        rcases he with rfl | rfl | he
        · simp only [effectId, Option.some.injEq] at hid
          subst hid
          exact hident
        · simp [effectId] at hid
        · simp at he

theorem checkNumbersLoop_trace_ids {σ μ : Type} (c : Collaborator σ μ) (items : List JsVal)
    (s : σ) (e : Effect μ) (numberId : String)
    (he : e ∈ (checkNumbersLoop c items (loopStart s : LoopState σ μ)).trace)
    (hid : effectId e = some numberId) :
    ∃ number ∈ items, isIdentifierOf number numberId := by
  induction items generalizing s with
  | nil => simp [checkNumbersLoop, loopStart] at he
  | cons x xs ih =>
    rw [checkNumbersLoop_trace_cons, List.mem_append] at he
    rcases he with he | he
    · exact ⟨x, List.mem_cons_self x xs, checkNumbersItem_trace_ids c x s e numberId he hid⟩
    · obtain ⟨number, hmem, hident⟩ := ih _ he
      exact ⟨number, List.mem_cons_of_mem x hmem, hident⟩

/-- The trace of `/check-numbers` is empty or the trace of the loop over the
items of `numbers`. -/
theorem checkNumbersTry_trace {σ μ : Type} (c : Collaborator σ μ) (isClientReady : Bool)
    (body : JsVal) (now : String) (s s1 : σ) (r : Except JsError Response)
    (trace : List (Effect μ))
    (h : checkNumbersTry c isClientReady body now s = (r, trace, s1)) :
    trace = [] ∨ ∃ numbers, destructure body "numbers" = .ok numbers ∧
      trace = (checkNumbersLoop c (arrayItems numbers) (loopStart s : LoopState σ μ)).trace := by
  unfold checkNumbersTry at h
  repeat' split at h
  all_goals simp only [Prod.mk.injEq] at h
  all_goals obtain ⟨-, rfl, -⟩ := h
  all_goals first
    | exact Or.inl rfl
    | exact Or.inr ⟨_, ‹_›, rfl⟩

theorem checkNumbers_trace {σ μ : Type} (c : Collaborator σ μ) (isClientReady : Bool)
    (body : JsVal) (now : String) (s : σ) :
    (checkNumbers c isClientReady body now s).trace = [] ∨
    ∃ numbers, destructure body "numbers" = .ok numbers ∧
      (checkNumbers c isClientReady body now s).trace =
        (checkNumbersLoop c (arrayItems numbers) (loopStart s : LoopState σ μ)).trace := by
  unfold checkNumbers
  split
  · next response trace s1 h => exact checkNumbersTry_trace c isClientReady body now s s1 _ _ h
  · next error trace s1 h => exact checkNumbersTry_trace c isClientReady body now s s1 _ _ h

/-- C18: in all three business endpoints, every identifier passed to the
collaborator (to `isRegisteredUser` or to `sendMessage`) is the cleaned form of
the request's number (for a batch: of one of its items) followed by `@c.us`, the
cleaned form being at least 10 characters, all digits; and in `/send-image` the
send goes to the identifier of the registration query that precedes it. -/
theorem collaborator_identifiers_are_cleaned_numbers {σ μ : Type} (c : Collaborator σ μ)
    (isClientReady : Bool) (body : JsVal) (now : String) (s : σ) :
    (∀ e ∈ (checkNumber c isClientReady body now s).trace, ∀ numberId,
      effectId e = some numberId →
        ∃ number, destructure body "number" = .ok number ∧ isIdentifierOf number numberId) ∧
    (∀ e ∈ (checkNumbers c isClientReady body now s).trace, ∀ numberId,
      effectId e = some numberId →
        ∃ numbers number, destructure body "numbers" = .ok numbers ∧
          number ∈ arrayItems numbers ∧ isIdentifierOf number numberId) ∧
    (∀ e ∈ (sendImage c isClientReady body now s).trace, ∀ numberId,
      effectId e = some numberId →
        ∃ number, destructure body "number" = .ok number ∧ isIdentifierOf number numberId) ∧
    (∀ numberId media caption,
      Effect.sendMessage numberId media caption ∈ (sendImage c isClientReady body now s).trace →
        ∃ url, (sendImage c isClientReady body now s).trace =
          [.isRegisteredUser numberId, .fromUrl url, .sendMessage numberId media caption]) := by
  refine ⟨?_, ?_, ?_, ?_⟩
  · intro e he numberId hid
    rcases checkNumber_trace c isClientReady body now s with h | ⟨number, d, hnum, hd, hlen, h⟩
    · rw [h] at he; simp at he
    · rw [h, List.mem_singleton] at he
      subst he
      simp only [effectId, Option.some.injEq] at hid
      subst hid
      exact ⟨number, hnum, isIdentifierOf_intro number d hd hlen⟩
  · intro e he numberId hid
    rcases checkNumbers_trace c isClientReady body now s with h | ⟨numbers, hnums, h⟩
    · rw [h] at he; simp at he
    · rw [h] at he
      obtain ⟨number, hmem, hident⟩ := checkNumbersLoop_trace_ids c _ s e numberId he hid
      exact ⟨numbers, number, hnums, hmem, hident⟩
  · intro e he numberId hid
    rcases sendImage_trace c isClientReady body now s with h | ⟨number, d, hnum, hd, hlen, h⟩
    · rw [h] at he; simp at he
    · have hident := isIdentifierOf_intro number d hd hlen
      refine ⟨number, hnum, ?_⟩
      rcases h with h | ⟨url, h⟩ | ⟨url, media, caption, h⟩
      · rw [h, List.mem_singleton] at he
        subst he
        simp only [effectId, Option.some.injEq] at hid
        subst hid
        exact hident
      · rw [h] at he
        simp only [List.mem_cons, List.mem_singleton] at he
        rcases he with rfl | rfl | he
        · simp only [effectId, Option.some.injEq] at hid
          subst hid
          exact hident
        · simp [effectId] at hid
        · simp at he
      · rw [h] at he
        simp only [List.mem_cons, List.mem_singleton] at he
        rcases he with rfl | rfl | rfl | he
        · simp only [effectId, Option.some.injEq] at hid
          subst hid
          exact hident
        · simp [effectId] at hid
        · simp only [effectId, Option.some.injEq] at hid
          subst hid
          exact hident
        · simp at he
  · intro numberId media caption hmem
    rcases sendImage_trace c isClientReady body now s with h | ⟨number, d, -, -, -, h⟩
    · rw [h] at hmem; simp at hmem
    · rcases h with h | ⟨url, h⟩ | ⟨url, media1, caption1, h⟩
      · rw [h] at hmem; simp at hmem
      · rw [h] at hmem; simp at hmem
      · rw [h] at hmem ⊢
        simp only [List.mem_cons, List.mem_singleton, Effect.sendMessage.injEq,
          List.not_mem_nil, or_false, false_or] at hmem
        rcases hmem with hmem | hmem | ⟨rfl, rfl, rfl⟩
        · exact Effect.noConfusion hmem
        · exact Effect.noConfusion hmem
        · exact ⟨url, rfl⟩

/-- An instance of C18: sending an image to the registered number
`+1 (234) 567-8901` queries and sends to `12345678901@c.us`. -/
theorem collaborator_identifiers_are_cleaned_numbers_witness :
    ∃ url, (sendImage sampleCollaborator true
        (.obj [("number", .str "+1 (234) 567-8901"),
               ("imageUrl", .str "https://example.com/a.png")])
        "2026-01-01T00:00:00.000Z" 0).trace =
      [.isRegisteredUser "12345678901@c.us", .fromUrl url,
       .sendMessage "12345678901@c.us" (.str "https://example.com/a.png") (.str "")] :=
  (collaborator_identifiers_are_cleaned_numbers sampleCollaborator true
    (.obj [("number", .str "+1 (234) 567-8901"),
           ("imageUrl", .str "https://example.com/a.png")])
    "2026-01-01T00:00:00.000Z" 0).2.2.2 "12345678901@c.us"
      (.str "https://example.com/a.png") (.str "")
      (List.mem_cons_of_mem _ (List.mem_cons_of_mem _ (List.mem_cons_self _ _)))

/-- An instance of C11: after `qr`, `authenticated`, `ready`, `disconnected`,
`ready`, `qr` the flag is true; the second `ready` has nothing lowering after
it. -/
theorem readiness_flag_tracks_last_ready_witness :
    isClientReadyAfter [.qr "2@abc", .authenticated, .ready, .disconnected "LOGOUT",
      .ready, .qr "2@def"] = true :=
  (readiness_flag_tracks_last_ready [.qr "2@abc", .authenticated, .ready,
      .disconnected "LOGOUT", .ready, .qr "2@def"]).2.1.mpr
    ⟨[.qr "2@abc", .authenticated, .ready, .disconnected "LOGOUT"], [.qr "2@def"], rfl,
      fun e he => by
        rw [List.mem_singleton] at he
        subst he
        exact ⟨fun _ h => ClientEvent.noConfusion h, fun _ h => ClientEvent.noConfusion h⟩⟩

end WPJS
